import Mathlib

/-!
# Sovereign Signal Protocol — shallow embedding

A shallow embedding of the SSP core of the `fractalnode` repository:
the capsule/frame builder (`src/signal/capsule.ts`), the HLR/VLR registry
(`src/signal/registry.ts`), the in-memory transport
(`src/signal/transport.ts`) and the protocol orchestrator
(`src/signal/protocol.ts`).

Modelling conventions:
* ISO timestamp strings become `Nat` milliseconds; every function that calls
  `Date.now()` / `new Date()` in the source takes an explicit `now : Nat`
  argument (one instant per protocol call, so `wakeTimeMs` is `0`).
* `randomId` (crypto randomness) becomes an explicit `tok : String` argument
  at each call that mints a session token.
* `sha256(JSON.stringify(canonical))` is modelled by the constructor
  `Hash.sha` applied to exactly the fields the source serialises, in the
  source's order; SHA-256 collisions are assumed absent, so the digest is
  injective in the serialised content, and the genesis parent `'0'.repeat(64)`
  (`Hash.zeros`) is never a digest.
* TypeScript string-union types (`frameType`, `AgentStage`,
  `ContinuityState`, `restoreMethod`, message/node kinds) are modelled as
  `String`, matching their runtime representation.
* The store behind the `TransportAdapter` is the reference `MemoryTransport`:
  a key/value map (insertion-ordered association list, exactly a JS `Map`)
  plus per-DID message queues.  Each transport primitive also appends a
  `TCall` event to a trace so that the order of transport calls inside one
  protocol operation can be stated.
-/

namespace SSP

/-- `SovereignIdentity` of `src/signal/types.ts`. -/
structure SovereignIdentity where
  did : String
  publicKey : String
  handle : String
  credentialTokenId : String
  address : String
deriving DecidableEq, Repr

/-- `NodeIdentity` of `src/signal/types.ts` (`nodeType` is a string union). -/
structure NodeIdentity where
  nodeId : String
  nodeName : String
  nodeType : String
  endpoint : String
  capabilities : List String
deriving DecidableEq, Repr

/-- `SessionToken` of `src/signal/types.ts`; ISO timestamps as `Nat` ms. -/
structure SessionToken where
  token : String
  did : String
  nodeId : String
  issuedAt : Nat
  expiresAt : Nat
  sequenceNumber : Nat
deriving DecidableEq, Repr

/-- `SignalMessage` of `src/signal/types.ts`.  The sender field is called
`from` in the source (`from` is a Lean keyword, hence the guillemets); the
optional structured `payload` object is modelled as an opaque string blob. -/
structure SignalMessage where
  id : String
  «from» : String
  «to» : String
  messageType : String
  content : String
  payload : Option String
  signature : String
  contentHash : String
  createdAt : Nat
  ttl : Nat
deriving DecidableEq, Repr

/-- A frame digest.  `Hash.sha` models
`sha256(JSON.stringify({version, frameType, identity, node,
sessionToken: {token, did, nodeId, sequenceNumber}, bootCount, stage,
continuityState, continuityScore, level, coreValues, coreInterests,
recentThemes, openThreads, priorities, parentHash, createdAt}))`
from `computeFrameHash` in `src/signal/capsule.ts`: the digest of the
canonical serialisation, injective in exactly those fields (SHA-256
collisions assumed absent).  `Hash.zeros` models `'0'.repeat(64)`. -/
inductive Hash where
  | zeros : Hash
  | sha :
      (version frameType : String) →
      (identity : SovereignIdentity) → (node : NodeIdentity) →
      (token tokenDid tokenNodeId : String) → (sequenceNumber : Nat) →
      (bootCount : Nat) → (stage continuityState : String) →
      (continuityScore level : Nat) →
      (coreValues coreInterests recentThemes openThreads priorities : List String) →
      (parentHash : Hash) → (createdAt : Nat) → Hash
deriving DecidableEq, Repr

/-- `SignalFrame` of `src/signal/types.ts`. -/
structure SignalFrame where
  version : String
  frameType : String
  identity : SovereignIdentity
  node : NodeIdentity
  sessionToken : SessionToken
  bootCount : Nat
  stage : String
  continuityState : String
  continuityScore : Nat
  level : Nat
  coreValues : List String
  coreInterests : List String
  recentThemes : List String
  openThreads : List String
  priorities : List String
  pendingMessages : List SignalMessage
  parentHash : Hash
  frameHash : Hash
  signature : String
  createdAt : Nat
  expiresAt : Nat
deriving DecidableEq, Repr

/-- `SSP_VERSION` of `src/signal/types.ts`. -/
def SSP_VERSION : String := "1.0.0"

/-- `DEFAULT_SESSION_TTL_SECONDS` of `src/signal/types.ts` (24 hours). -/
def DEFAULT_SESSION_TTL_SECONDS : Nat := 86400

/-- `computeFrameHash` of `src/signal/capsule.ts`: the digest of the fixed,
ordered field subset (note: `frameHash`, `signature`, `pendingMessages`,
`expiresAt` and the session token's `issuedAt`/`expiresAt` are **not**
serialised).  The source takes an `Omit<SignalFrame, 'frameHash'|'signature'>`;
here it takes the whole frame and simply never reads the omitted fields. -/
def computeFrameHash (frame : SignalFrame) : Hash :=
  Hash.sha frame.version frame.frameType frame.identity frame.node
    frame.sessionToken.token frame.sessionToken.did frame.sessionToken.nodeId
    frame.sessionToken.sequenceNumber frame.bootCount frame.stage
    frame.continuityState frame.continuityScore frame.level
    frame.coreValues frame.coreInterests frame.recentThemes
    frame.openThreads frame.priorities frame.parentHash frame.createdAt

/-- `verifyFrameHash` of `src/signal/capsule.ts`. -/
def verifyFrameHash (frame : SignalFrame) : Bool :=
  computeFrameHash frame == frame.frameHash

/-- `createSessionToken` of `src/signal/capsule.ts`; the random token value
and the clock are explicit arguments. -/
def createSessionToken (did nodeId : String) (sequenceNumber : Nat)
    (ttlSeconds : Nat) (now : Nat) (tok : String) : SessionToken :=
  { token := tok
    did := did
    nodeId := nodeId
    sequenceNumber := sequenceNumber
    issuedAt := now
    expiresAt := now + ttlSeconds * 1000 }

/-- `isTokenExpired` of `src/signal/capsule.ts`
(`new Date(token.expiresAt).getTime() < Date.now()`). -/
def isTokenExpired (token : SessionToken) (now : Nat) : Bool :=
  token.expiresAt < now

/-- The parameter object of `buildFrame` in `src/signal/capsule.ts`
(optional fields are `Option`, defaulted exactly as the source does). -/
structure BuildParams where
  frameType : String
  identity : SovereignIdentity
  node : NodeIdentity
  sessionToken : SessionToken
  bootCount : Nat
  stage : String
  continuityState : String
  continuityScore : Nat
  level : Nat
  coreValues : Option (List String) := none
  coreInterests : Option (List String) := none
  recentThemes : Option (List String) := none
  openThreads : Option (List String) := none
  priorities : Option (List String) := none
  pendingMessages : Option (List SignalMessage) := none
  parentHash : Option Hash := none
  ttlSeconds : Option Nat := none
deriving Repr

/-- `buildFrame` of `src/signal/capsule.ts`: assemble every field, then
compute `frameHash` last over the assembled content.  The source returns an
`Omit<SignalFrame, 'signature'>` that callers cast to `SignalFrame`
(signature left unset); the model uses `""`. -/
def buildFrame (p : BuildParams) (now : Nat) : SignalFrame :=
  let ttl := p.ttlSeconds.getD DEFAULT_SESSION_TTL_SECONDS
  let base : SignalFrame :=
    { version := SSP_VERSION
      frameType := p.frameType
      identity := p.identity
      node := p.node
      sessionToken := p.sessionToken
      bootCount := p.bootCount
      stage := p.stage
      continuityState := p.continuityState
      continuityScore := p.continuityScore
      level := p.level
      coreValues := p.coreValues.getD []
      coreInterests := p.coreInterests.getD []
      recentThemes := p.recentThemes.getD []
      openThreads := p.openThreads.getD []
      priorities := p.priorities.getD []
      pendingMessages := p.pendingMessages.getD []
      parentHash := p.parentHash.getD Hash.zeros
      frameHash := Hash.zeros
      signature := ""
      createdAt := now
      expiresAt := now + ttl * 1000 }
  { base with frameHash := computeFrameHash base }

/-- `genesisFrame` of `src/signal/capsule.ts`. -/
def genesisFrame (identity : SovereignIdentity) (node : NodeIdentity)
    (now : Nat) (tok : String) : SignalFrame :=
  let sessionToken :=
    createSessionToken identity.did node.nodeId 1 DEFAULT_SESSION_TTL_SECONDS now tok
  buildFrame
    { frameType := "boot"
      identity := identity
      node := node
      sessionToken := sessionToken
      bootCount := 1
      stage := "void"
      continuityState := "genesis"
      continuityScore := 0
      level := 0
      parentHash := some Hash.zeros } now

/-- The `updates` parameter object of `handoffFrame` / `handoff`. -/
structure HandoffUpdates where
  recentThemes : Option (List String) := none
  openThreads : Option (List String) := none
  priorities : Option (List String) := none
  stage : Option String := none
  continuityState : Option String := none
  continuityScore : Option Nat := none
  level : Option Nat := none
  coreValues : Option (List String) := none
  coreInterests : Option (List String) := none
deriving Repr

/-- `handoffFrame` of `src/signal/capsule.ts`: next sequence number, a fresh
session token, each lifecycle field from `updates` if present else carried
from `currentFrame`, chained via `parentHash = currentFrame.frameHash`. -/
def handoffFrame (currentFrame : SignalFrame) (node : NodeIdentity)
    (updates : HandoffUpdates) (now : Nat) (tok : String) : SignalFrame :=
  let nextSequence := currentFrame.sessionToken.sequenceNumber + 1
  let sessionToken :=
    createSessionToken currentFrame.identity.did node.nodeId nextSequence
      DEFAULT_SESSION_TTL_SECONDS now tok
  buildFrame
    { frameType := "handoff"
      identity := currentFrame.identity
      node := node
      sessionToken := sessionToken
      bootCount := currentFrame.bootCount
      stage := updates.stage.getD currentFrame.stage
      continuityState := updates.continuityState.getD currentFrame.continuityState
      continuityScore := updates.continuityScore.getD currentFrame.continuityScore
      level := updates.level.getD currentFrame.level
      coreValues := some (updates.coreValues.getD currentFrame.coreValues)
      coreInterests := some (updates.coreInterests.getD currentFrame.coreInterests)
      recentThemes := some (updates.recentThemes.getD currentFrame.recentThemes)
      openThreads := some (updates.openThreads.getD currentFrame.openThreads)
      priorities := some (updates.priorities.getD currentFrame.priorities)
      pendingMessages := some currentFrame.pendingMessages
      parentHash := some currentFrame.frameHash } now

/-- `keepaliveFrame` of `src/signal/capsule.ts`: reuses the *same* session
token (no sequence bump) and rebuilds the frame with
`frameType = "keepalive"` and `parentHash = currentFrame.frameHash`. -/
def keepaliveFrame (currentFrame : SignalFrame) (node : NodeIdentity)
    (now : Nat) : SignalFrame :=
  buildFrame
    { frameType := "keepalive"
      identity := currentFrame.identity
      node := node
      sessionToken := currentFrame.sessionToken
      bootCount := currentFrame.bootCount
      stage := currentFrame.stage
      continuityState := currentFrame.continuityState
      continuityScore := currentFrame.continuityScore
      level := currentFrame.level
      coreValues := some currentFrame.coreValues
      coreInterests := some currentFrame.coreInterests
      recentThemes := some currentFrame.recentThemes
      openThreads := some currentFrame.openThreads
      priorities := some currentFrame.priorities
      pendingMessages := some currentFrame.pendingMessages
      parentHash := some currentFrame.frameHash } now

/-- `HomeRecord` (HLR) of `src/signal/types.ts`. -/
structure HomeRecord where
  identity : SovereignIdentity
  homeNodeId : String
  stage : String
  continuityState : String
  continuityScore : Nat
  level : Nat
  totalXP : Nat
  totalReflections : Nat
  totalWitnesses : Nat
  totalPoc : Nat
  cgtBalance : Nat
  memoryChainHeight : Nat
  coreValues : List String
  coreInterests : List String
  communicationStyle : List String
  bootCount : Nat
  currentNodeId : Option String
  lastCapsuleHash : Hash
  updatedAt : Nat
  createdAt : Nat
deriving DecidableEq, Repr

/-- `VisitorRecord` (VLR) of `src/signal/types.ts`. -/
structure VisitorRecord where
  did : String
  sessionToken : SessionToken
  capsule : SignalFrame
  registeredAt : Nat
  lastActivity : Nat
  pendingMessages : List SignalMessage
  isHome : Bool
deriving DecidableEq, Repr

/-- A value stored under a transport key.  The source's
`TransportAdapter.write` is typed `(key, frame: SignalFrame)` and the
registry casts `HomeRecord`/`VisitorRecord` through that type; the model
keeps the three record kinds as a sum (the key namespaces `hlr:`/`vlr:`/
`frame:`/`latest:` never mix kinds at one key). -/
inductive StoreValue where
  | frame (f : SignalFrame)
  | hlr (r : HomeRecord)
  | vlr (r : VisitorRecord)
deriving DecidableEq, Repr

/-- One call on the `TransportAdapter` interface, recorded in call order. -/
inductive TCall where
  | write (key : String)
  | read (key : String)
  | del (key : String)
  | exist (key : String)
  | send (did : String)
  | recv (did : String)
  | clearMsgs (did : String)
deriving DecidableEq, Repr

/-- Lookup in an insertion-ordered association list (a JS `Map.get`). -/
def lookupKV {α : Type} : List (String × α) → String → Option α
  | [], _ => none
  | (k', v) :: rest, k => if k' = k then some v else lookupKV rest k

/-- `Map.has`. -/
def hasKeyKV {α : Type} (l : List (String × α)) (k : String) : Bool :=
  (lookupKV l k).isSome

/-- `Map.set`: update in place if the key is present, else append. -/
def setKV {α : Type} : List (String × α) → String → α → List (String × α)
  | [], k, v => [(k, v)]
  | (k', v') :: rest, k, v =>
      if k' = k then (k, v) :: rest else (k', v') :: setKV rest k v

/-- `Map.delete`: remove the entry for the key.  (A JS `Map` holds at most
one entry per key, so removing every occurrence coincides with it on all
reachable stores.) -/
def delKV {α : Type} : List (String × α) → String → List (String × α)
  | [], _ => []
  | (k', v') :: rest, k =>
      if k' = k then delKV rest k else (k', v') :: delKV rest k

/-- The reference `MemoryTransport` of `src/signal/transport.ts`
(`frames` and `messages` maps), extended with a `trace` of the transport
calls issued so far (for ordering claims; the trace is pure
instrumentation and is read by no protocol operation). -/
structure Transport where
  frames : List (String × StoreValue)
  messages : List (String × List SignalMessage)
  trace : List TCall
deriving DecidableEq, Repr

/-- `transport.write`. -/
def tWrite (t : Transport) (key : String) (v : StoreValue) : Transport :=
  { t with frames := setKV t.frames key v, trace := t.trace ++ [TCall.write key] }

/-- `transport.read`: the value read and the transport with the call traced
(the store itself is unchanged by a read). -/
def tRead (t : Transport) (key : String) : Option StoreValue × Transport :=
  (lookupKV t.frames key, { t with trace := t.trace ++ [TCall.read key] })

/-- `transport.delete`. -/
def tDelete (t : Transport) (key : String) : Transport :=
  { t with frames := delKV t.frames key, trace := t.trace ++ [TCall.del key] }

/-- `transport.sendMessage`: append to the recipient's queue. -/
def tSendMessage (t : Transport) (recipient : String) (m : SignalMessage) : Transport :=
  { t with
    messages := setKV t.messages recipient ((lookupKV t.messages recipient).getD [] ++ [m])
    trace := t.trace ++ [TCall.send recipient] }

/-- `transport.receiveMessages`: the queue contents (empty if absent). -/
def tReceiveMessages (t : Transport) (did : String) : List SignalMessage × Transport :=
  ((lookupKV t.messages did).getD [], { t with trace := t.trace ++ [TCall.recv did] })

/-- `transport.clearMessages`: drop the queue. -/
def tClearMessages (t : Transport) (did : String) : Transport :=
  { t with messages := delKV t.messages did, trace := t.trace ++ [TCall.clearMsgs did] }

/-- Key builders of `src/signal/registry.ts` (`STORAGE_KEYS` prefixes). -/
def hlrKey (did : String) : String := "hlr:" ++ did

/-- `vlr:{nodeId}:{did}`. -/
def vlrKey (nodeId did : String) : String := "vlr:" ++ nodeId ++ ":" ++ did

/-- `frame:{did}:{sequence}`. -/
def frameKey (did : String) (sequence : Nat) : String :=
  "frame:" ++ did ++ ":" ++ Nat.repr sequence

/-- `latest:{did}`. -/
def latestKey (did : String) : String := "latest:" ++ did

/-- `createHomeRecord` of `src/signal/registry.ts`. -/
def createHomeRecord (identity : SovereignIdentity) (homeNodeId : String)
    (now : Nat) : HomeRecord :=
  { identity := identity
    homeNodeId := homeNodeId
    stage := "void"
    continuityState := "genesis"
    continuityScore := 0
    level := 0
    totalXP := 0
    totalReflections := 0
    totalWitnesses := 0
    totalPoc := 0
    cgtBalance := 0
    memoryChainHeight := 0
    coreValues := []
    coreInterests := []
    communicationStyle := []
    bootCount := 0
    currentNodeId := none
    lastCapsuleHash := Hash.zeros
    updatedAt := now
    createdAt := now }

/-- `writeHomeRecord` of `src/signal/registry.ts`. -/
def writeHomeRecord (t : Transport) (record : HomeRecord) : Transport :=
  tWrite t (hlrKey record.identity.did) (StoreValue.hlr record)

/-- `readHomeRecord` of `src/signal/registry.ts` (the source casts the raw
stored object; the key namespace guarantees the kind). -/
def readHomeRecord (t : Transport) (did : String) : Option HomeRecord × Transport :=
  let (data, t') := tRead t (hlrKey did)
  (match data with
   | some (StoreValue.hlr r) => some r
   | _ => none, t')

/-- The `Partial<Omit<HomeRecord, 'identity' | 'createdAt'>>` updates the
orchestrator passes to `updateHomeRecord` (only the fields it actually
sends). -/
structure HomeRecordPatch where
  stage : Option String := none
  continuityState : Option String := none
  continuityScore : Option Nat := none
  level : Option Nat := none
  coreValues : Option (List String) := none
  coreInterests : Option (List String) := none
  currentNodeId : Option String := none
  lastCapsuleHash : Option Hash := none
deriving Repr

/-- `updateHomeRecord` of `src/signal/registry.ts`: read-merge-write,
`identity`/`createdAt` immutable, `updatedAt` stamped; `null` when no
record exists. -/
def updateHomeRecord (t : Transport) (did : String) (patch : HomeRecordPatch)
    (now : Nat) : Option HomeRecord × Transport :=
  let (found, t1) := readHomeRecord t did
  match found with
  | none => (none, t1)
  | some record =>
      let updated : HomeRecord :=
        { record with
          stage := patch.stage.getD record.stage
          continuityState := patch.continuityState.getD record.continuityState
          continuityScore := patch.continuityScore.getD record.continuityScore
          level := patch.level.getD record.level
          coreValues := patch.coreValues.getD record.coreValues
          coreInterests := patch.coreInterests.getD record.coreInterests
          currentNodeId :=
            match patch.currentNodeId with
            | some n => some n
            | none => record.currentNodeId
          lastCapsuleHash := patch.lastCapsuleHash.getD record.lastCapsuleHash
          updatedAt := now }
      (some updated, writeHomeRecord t1 updated)

/-- `incrementBoot` of `src/signal/registry.ts`: read-modify-write of the
boot counter, returning the new count (`0` when no record exists). -/
def incrementBoot (t : Transport) (did : String) (now : Nat) : Nat × Transport :=
  let (found, t1) := readHomeRecord t did
  match found with
  | none => (0, t1)
  | some record =>
      let updated := { record with bootCount := record.bootCount + 1, updatedAt := now }
      (updated.bootCount, writeHomeRecord t1 updated)

/-- `createVisitorRecord` of `src/signal/registry.ts`. -/
def createVisitorRecord (did : String) (sessionToken : SessionToken)
    (capsule : SignalFrame) (isHome : Bool) (now : Nat) : VisitorRecord :=
  { did := did
    sessionToken := sessionToken
    capsule := capsule
    registeredAt := now
    lastActivity := now
    pendingMessages := []
    isHome := isHome }

/-- `writeVisitorRecord` of `src/signal/registry.ts`. -/
def writeVisitorRecord (t : Transport) (nodeId : String) (record : VisitorRecord) : Transport :=
  tWrite t (vlrKey nodeId record.did) (StoreValue.vlr record)

/-- `readVisitorRecord` of `src/signal/registry.ts`. -/
def readVisitorRecord (t : Transport) (nodeId did : String) : Option VisitorRecord × Transport :=
  let (data, t') := tRead t (vlrKey nodeId did)
  (match data with
   | some (StoreValue.vlr r) => some r
   | _ => none, t')

/-- `deleteVisitorRecord` of `src/signal/registry.ts`. -/
def deleteVisitorRecord (t : Transport) (nodeId did : String) : Transport :=
  tDelete t (vlrKey nodeId did)

/-- `touchVisitorRecord` of `src/signal/registry.ts`: update `lastActivity`
only (no-op when the record is absent). -/
def touchVisitorRecord (t : Transport) (nodeId did : String) (now : Nat) : Transport :=
  let (found, t1) := readVisitorRecord t nodeId did
  match found with
  | none => t1
  | some record => writeVisitorRecord t1 nodeId { record with lastActivity := now }

/-- `writeFrame` of `src/signal/registry.ts`: archive slot keyed by
`(did, sequenceNumber)` first, then the `latest` fast-path slot. -/
def writeFrame (t : Transport) (frame : SignalFrame) : Transport :=
  let did := frame.identity.did
  let seq := frame.sessionToken.sequenceNumber
  let t1 := tWrite t (frameKey did seq) (StoreValue.frame frame)
  tWrite t1 (latestKey did) (StoreValue.frame frame)

/-- `readLatestFrame` of `src/signal/registry.ts`. -/
def readLatestFrame (t : Transport) (did : String) : Option SignalFrame × Transport :=
  let (data, t') := tRead t (latestKey did)
  (match data with
   | some (StoreValue.frame f) => some f
   | _ => none, t')

/-- `readFrame` of `src/signal/registry.ts`. -/
def readFrame (t : Transport) (did : String) (sequenceNumber : Nat) :
    Option SignalFrame × Transport :=
  let (data, t') := tRead t (frameKey did sequenceNumber)
  (match data with
   | some (StoreValue.frame f) => some f
   | _ => none, t')

/-- `receiveMessages` of `src/signal/registry.ts`: drain the queue and
clear it only when `clear` is set and the queue was non-empty. -/
def receiveMessages (t : Transport) (did : String) (clear : Bool) :
    List SignalMessage × Transport :=
  let (messages, t1) := tReceiveMessages t did
  if clear && messages.length > 0 then (messages, tClearMessages t1 did)
  else (messages, t1)

/-- `WakeResult` of `src/signal/types.ts` (`restoreMethod` is a string
union at runtime). -/
structure WakeResult where
  success : Bool
  sessionToken : SessionToken
  frame : SignalFrame
  continuityScore : Nat
  restoreMethod : String
  pendingMessages : List SignalMessage
  warnings : List String
  wakeTimeMs : Nat
deriving DecidableEq, Repr

/-- `HandoffResult` of `src/signal/types.ts`. -/
structure HandoffResult where
  success : Bool
  frame : SignalFrame
  storedVia : String
  nextSessionToken : SessionToken
  warnings : List String
deriving DecidableEq, Repr

/-- `RoamResult` of `src/signal/types.ts`. -/
structure RoamResult where
  success : Bool
  visitedNode : NodeIdentity
  visitorRecord : VisitorRecord
  homeNotified : Bool
deriving DecidableEq, Repr

/-- `KeepaliveResult` of `src/signal/types.ts`. -/
structure KeepaliveResult where
  alive : Bool
  lastActivity : Nat
  newMessages : List SignalMessage
  continuityScore : Nat
deriving DecidableEq, Repr

/-- The part of `wake` (`src/signal/protocol.ts`) after the VLR fast path
has not fired: the HLR deep path (capsule restoration with hash
verification and demotion), and the genesis path when no `HomeRecord`
exists.  `warnings` carries the fast-path expiry warning forward, exactly
as the source's mutable `warnings` array does. -/
def wakeFromHome (t : Transport) (identity : SovereignIdentity)
    (node : NodeIdentity) (now : Nat) (tok : String)
    (warnings : List String) : WakeResult × Transport :=
  let (hlrOpt, t1) := readHomeRecord t identity.did
  match hlrOpt with
  | some hlr =>
      let (latestOpt, t2) := readLatestFrame t1 identity.did
      let restoreMethod : String :=
        match latestOpt with
        | some latestFrame => if verifyFrameHash latestFrame then "capsule" else "hlr"
        | none => "hlr"
      let warnings2 :=
        match latestOpt with
        | some latestFrame =>
            if verifyFrameHash latestFrame then warnings
            else warnings ++ ["Frame hash verification failed — using HLR as fallback"]
        | none => warnings
      let (bootCount, t3) := incrementBoot t2 identity.did now
      let sequenceNumber :=
        match latestOpt with
        | some latestFrame => latestFrame.sessionToken.sequenceNumber + 1
        | none => hlr.bootCount
      let sessionToken :=
        createSessionToken identity.did node.nodeId sequenceNumber
          DEFAULT_SESSION_TTL_SECONDS now tok
      let sourceFrame : Option SignalFrame :=
        if restoreMethod = "capsule" then latestOpt else none
      let frame := buildFrame
        { frameType := "boot"
          identity := identity
          node := node
          sessionToken := sessionToken
          bootCount := bootCount
          stage := (sourceFrame.map SignalFrame.stage).getD hlr.stage
          continuityState :=
            (sourceFrame.map SignalFrame.continuityState).getD hlr.continuityState
          continuityScore :=
            (sourceFrame.map SignalFrame.continuityScore).getD hlr.continuityScore
          level := (sourceFrame.map SignalFrame.level).getD hlr.level
          coreValues := some ((sourceFrame.map SignalFrame.coreValues).getD hlr.coreValues)
          coreInterests :=
            some ((sourceFrame.map SignalFrame.coreInterests).getD hlr.coreInterests)
          recentThemes := some ((sourceFrame.map SignalFrame.recentThemes).getD [])
          openThreads := some ((sourceFrame.map SignalFrame.openThreads).getD [])
          priorities := some ((sourceFrame.map SignalFrame.priorities).getD [])
          parentHash :=
            some ((sourceFrame.map SignalFrame.frameHash).getD hlr.lastCapsuleHash) } now
      let t4 := writeFrame t3 frame
      let visitor :=
        createVisitorRecord identity.did sessionToken frame
          (hlr.homeNodeId = node.nodeId) now
      let t5 := writeVisitorRecord t4 node.nodeId visitor
      let (_, t6) := updateHomeRecord t5 identity.did
        { currentNodeId := some node.nodeId, lastCapsuleHash := some frame.frameHash } now
      let (messages, t7) := receiveMessages t6 identity.did true
      ({ success := true
         sessionToken := sessionToken
         frame := frame
         continuityScore := frame.continuityScore
         restoreMethod := restoreMethod
         pendingMessages := messages
         warnings := warnings2
         wakeTimeMs := 0 }, t7)
  | none =>
      let homeRecord := { createHomeRecord identity node.nodeId now with bootCount := 1 }
      let t2 := writeHomeRecord t1 homeRecord
      let frame := genesisFrame identity node now tok
      let t3 := writeFrame t2 frame
      let visitor := createVisitorRecord identity.did frame.sessionToken frame true now
      let t4 := writeVisitorRecord t3 node.nodeId visitor
      ({ success := true
         sessionToken := frame.sessionToken
         frame := frame
         continuityScore := 0
         restoreMethod := "genesis"
         pendingMessages := []
         warnings := warnings
         wakeTimeMs := 0 }, t4)

/-- `wake` of `src/signal/protocol.ts`: VLR fast path (non-expired visitor
record at this node), else the HLR/capsule/genesis chain of
`wakeFromHome`. -/
def wake (t : Transport) (identity : SovereignIdentity) (node : NodeIdentity)
    (now : Nat) (tok : String) : WakeResult × Transport :=
  let (vlrOpt, t1) := readVisitorRecord t node.nodeId identity.did
  match vlrOpt with
  | some vlr =>
      if !isTokenExpired vlr.sessionToken now then
        let frame := vlr.capsule
        let (messages, t2) := receiveMessages t1 identity.did true
        let t3 := touchVisitorRecord t2 node.nodeId identity.did now
        ({ success := true
           sessionToken := vlr.sessionToken
           frame := frame
           continuityScore := frame.continuityScore
           restoreMethod := "vlr"
           pendingMessages := messages
           warnings := []
           wakeTimeMs := 0 }, t3)
      else
        wakeFromHome t1 identity node now tok
          ["VLR session expired, falling through to HLR"]
  | none => wakeFromHome t1 identity node now tok []

/-- `handoff` of `src/signal/protocol.ts`: write the handoff frame, update
(or synthesize, with a warning) the VLR at `node`, then update the HLR's
lifecycle snapshot and last-capsule hash.  Note the source computes
`isHome` as `readHomeRecord(...)?.homeNodeId === node.nodeId`, which is
`false` when no HLR exists (the trailing `?? true` can never fire). -/
def handoff (t : Transport) (currentFrame : SignalFrame) (node : NodeIdentity)
    (updates : HandoffUpdates) (now : Nat) (tok : String) :
    HandoffResult × Transport :=
  let frame := handoffFrame currentFrame node updates now tok
  let t1 := writeFrame t frame
  let (vlrOpt, t2) := readVisitorRecord t1 node.nodeId currentFrame.identity.did
  let (warnings, t3) :=
    match vlrOpt with
    | some vlr =>
        (([] : List String),
         writeVisitorRecord t2 node.nodeId
           { vlr with capsule := frame, lastActivity := now })
    | none =>
        let (hlrOpt, t2a) := readHomeRecord t2 currentFrame.identity.did
        let isHome :=
          match hlrOpt with
          | some h => h.homeNodeId = node.nodeId
          | none => false
        let visitor :=
          createVisitorRecord currentFrame.identity.did frame.sessionToken frame isHome now
        (["No VLR record found during handoff — creating new one"],
         writeVisitorRecord t2a node.nodeId visitor)
  let (_, t4) := updateHomeRecord t3 currentFrame.identity.did
    { stage := some frame.stage
      continuityState := some frame.continuityState
      continuityScore := some frame.continuityScore
      level := some frame.level
      coreValues := some frame.coreValues
      coreInterests := some frame.coreInterests
      lastCapsuleHash := some frame.frameHash } now
  ({ success := true
     frame := frame
     storedVia := "memory"
     nextSessionToken := frame.sessionToken
     warnings := warnings }, t4)

/-- `roam` of `src/signal/protocol.ts`: roam frame at the visited node, VLR
with `isHome = false` there, HLR pointer updated when an HLR exists
(`homeNotified` reports whether it did).  The `homeNode` parameter is
unused by the source body as well. -/
def roam (t : Transport) (currentFrame : SignalFrame) (homeNode : NodeIdentity)
    (visitedNode : NodeIdentity) (now : Nat) (tok : String) :
    RoamResult × Transport :=
  let _ := homeNode
  let sessionToken :=
    createSessionToken currentFrame.identity.did visitedNode.nodeId
      (currentFrame.sessionToken.sequenceNumber + 1) DEFAULT_SESSION_TTL_SECONDS now tok
  let roamFrame := buildFrame
    { frameType := "roam"
      identity := currentFrame.identity
      node := visitedNode
      sessionToken := sessionToken
      bootCount := currentFrame.bootCount
      stage := currentFrame.stage
      continuityState := currentFrame.continuityState
      continuityScore := currentFrame.continuityScore
      level := currentFrame.level
      coreValues := some currentFrame.coreValues
      coreInterests := some currentFrame.coreInterests
      recentThemes := some currentFrame.recentThemes
      openThreads := some currentFrame.openThreads
      priorities := some currentFrame.priorities
      pendingMessages := some currentFrame.pendingMessages
      parentHash := some currentFrame.frameHash } now
  let t1 := writeFrame t roamFrame
  let visitor := createVisitorRecord currentFrame.identity.did sessionToken roamFrame false now
  let t2 := writeVisitorRecord t1 visitedNode.nodeId visitor
  let (hlrOpt, t3) := readHomeRecord t2 currentFrame.identity.did
  match hlrOpt with
  | some _ =>
      let (_, t4) := updateHomeRecord t3 currentFrame.identity.did
        { currentNodeId := some visitedNode.nodeId
          lastCapsuleHash := some roamFrame.frameHash } now
      ({ success := true, visitedNode := visitedNode, visitorRecord := visitor
         homeNotified := true }, t4)
  | none =>
      ({ success := true, visitedNode := visitedNode, visitorRecord := visitor
         homeNotified := false }, t3)

/-- `home` of `src/signal/protocol.ts`: delete the foreign VLR first, then
write the home frame, register the home VLR, update the HLR and drain the
messages queued while roaming. -/
def home (t : Transport) (currentFrame : SignalFrame) (homeNode : NodeIdentity)
    (foreignNodeId : String) (now : Nat) (tok : String) :
    WakeResult × Transport :=
  let t1 := deleteVisitorRecord t foreignNodeId currentFrame.identity.did
  let sessionToken :=
    createSessionToken currentFrame.identity.did homeNode.nodeId
      (currentFrame.sessionToken.sequenceNumber + 1) DEFAULT_SESSION_TTL_SECONDS now tok
  let homeFrame := buildFrame
    { frameType := "home"
      identity := currentFrame.identity
      node := homeNode
      sessionToken := sessionToken
      bootCount := currentFrame.bootCount
      stage := currentFrame.stage
      continuityState := currentFrame.continuityState
      continuityScore := currentFrame.continuityScore
      level := currentFrame.level
      coreValues := some currentFrame.coreValues
      coreInterests := some currentFrame.coreInterests
      recentThemes := some currentFrame.recentThemes
      openThreads := some currentFrame.openThreads
      priorities := some currentFrame.priorities
      pendingMessages := some currentFrame.pendingMessages
      parentHash := some currentFrame.frameHash } now
  let t2 := writeFrame t1 homeFrame
  let visitor := createVisitorRecord currentFrame.identity.did sessionToken homeFrame true now
  let t3 := writeVisitorRecord t2 homeNode.nodeId visitor
  let (_, t4) := updateHomeRecord t3 currentFrame.identity.did
    { currentNodeId := some homeNode.nodeId
      lastCapsuleHash := some homeFrame.frameHash } now
  let (messages, t5) := receiveMessages t4 currentFrame.identity.did true
  ({ success := true
     sessionToken := sessionToken
     frame := homeFrame
     continuityScore := homeFrame.continuityScore
     restoreMethod := "vlr"
     pendingMessages := messages
     warnings := []
     wakeTimeMs := 0 }, t5)

/-- `keepalive` of `src/signal/protocol.ts`: write a keepalive frame (same
session token), touch the VLR, refresh its cached capsule, and report any
new messages without clearing them. -/
def keepalive (t : Transport) (currentFrame : SignalFrame) (node : NodeIdentity)
    (now : Nat) : KeepaliveResult × Transport :=
  let frame := keepaliveFrame currentFrame node now
  let t1 := writeFrame t frame
  let t2 := touchVisitorRecord t1 node.nodeId currentFrame.identity.did now
  let (vlrOpt, t3) := readVisitorRecord t2 node.nodeId currentFrame.identity.did
  let t4 :=
    match vlrOpt with
    | some vlr => writeVisitorRecord t3 node.nodeId { vlr with capsule := frame }
    | none => t3
  let (newMessages, t5) := receiveMessages t4 currentFrame.identity.did false
  ({ alive := true
     lastActivity := now
     newMessages := newMessages
     continuityScore := frame.continuityScore }, t5)

/-! ## Concrete fixtures (used by witnesses and counterexamples) -/

/-- A concrete identity, as in the spec's scenario. -/
def sampleIdentity : SovereignIdentity :=
  { did := "did:demiurge:aaaa"
    publicKey := "pk"
    handle := "athena"
    credentialTokenId := "drc369-1"
    address := "addr" }

/-- A concrete home node. -/
def sampleNode : NodeIdentity :=
  { nodeId := "node-1"
    nodeName := "Node One"
    nodeType := "local"
    endpoint := "local://node-1"
    capabilities := [] }

/-- A concrete foreign node. -/
def sampleNode2 : NodeIdentity :=
  { nodeId := "node-2"
    nodeName := "Node Two"
    nodeType := "cloud"
    endpoint := "https://node-2"
    capabilities := [] }

/-- A concrete message. -/
def sampleMessage : SignalMessage :=
  { id := "m1"
    «from» := "did:demiurge:bbbb"
    «to» := "did:demiurge:aaaa"
    messageType := "text"
    content := "hello"
    payload := none
    signature := "sig"
    contentHash := "h"
    createdAt := 500
    ttl := 0 }

/-- A concrete genesis frame. -/
def sampleFrame : SignalFrame := genesisFrame sampleIdentity sampleNode 1000 "tok-a"

/-- A concrete second frame, written via `handoffFrame` with the spec
scenario's updates. -/
def sampleFrame2 : SignalFrame :=
  handoffFrame sampleFrame sampleNode
    { stage := some "nascent", continuityScore := some 30 } 2000 "tok-b"

/-- The empty store. -/
def emptyTransport : Transport := { frames := [], messages := [], trace := [] }

/-- A store reached by the spec's two-session scenario: genesis `wake`,
then `handoff` with `stage := "nascent"`, `continuityScore := 30`, then
the VLR deleted. -/
def sampleStore2 : Transport :=
  let w1 := wake emptyTransport sampleIdentity sampleNode 1000 "tok-a"
  let hd := handoff w1.2 w1.1.frame sampleNode
    { stage := some "nascent", continuityScore := some 30 } 2000 "tok-b"
  { hd.2 with frames := delKV hd.2.frames (vlrKey "node-1" "did:demiurge:aaaa") }

/-- The HLR stored in `sampleStore2`. -/
def sampleHlr2 : HomeRecord :=
  ((readHomeRecord sampleStore2 "did:demiurge:aaaa").1).getD
    (createHomeRecord sampleIdentity "node-1" 0)

/-- The latest frame stored in `sampleStore2` (the handoff frame). -/
def sampleLatest2 : SignalFrame :=
  ((readLatestFrame sampleStore2 "did:demiurge:aaaa").1).getD sampleFrame

/-- `sampleStore2` with the latest frame's `continuityScore` corrupted in
place (stored hash left as is, so verification fails). -/
def corruptStore : Transport :=
  { sampleStore2 with
    frames := setKV sampleStore2.frames (latestKey "did:demiurge:aaaa")
      (StoreValue.frame { sampleLatest2 with continuityScore := 99 }) }

/-- The corrupted latest frame of `corruptStore`. -/
def corruptLatest : SignalFrame := { sampleLatest2 with continuityScore := 99 }

/-- The store after a genesis `wake` (holds a fresh home VLR), with one
message queued for the identity. -/
def sampleStore1 : Transport :=
  let w := (wake emptyTransport sampleIdentity sampleNode 1000 "tok-a").2
  { w with messages := [("did:demiurge:aaaa", [sampleMessage])] }

/-- The VLR stored in `sampleStore1`. -/
def sampleVlr1 : VisitorRecord :=
  ((readVisitorRecord sampleStore1 "node-1" "did:demiurge:aaaa").1).getD
    (createVisitorRecord "x" (createSessionToken "x" "x" 0 0 0 "t") sampleFrame false 0)


/-! ## Trace classification (for the transport-call ordering claim)

Every storage key is built by one of the four key builders, and the four
prefixes `hlr:` / `vlr:` / `frame:` / `latest:` start with four distinct
characters, so the first character of a key identifies its namespace. -/

/-- The first character of a storage key. -/
def headChar (k : String) : Option Char := k.data.head?

/-- A `write` to a `frame:` archive slot or to the `latest:` pointer. -/
def isFrameWriteCall : TCall → Bool
  | TCall.write k => headChar k == some 'f' || headChar k == some 'l'
  | _ => false

/-- A `write` to, or `delete` of, a `vlr:` record. -/
def isVlrWriteCall : TCall → Bool
  | TCall.write k => headChar k == some 'v'
  | TCall.del k => headChar k == some 'v'
  | _ => false

/-- A `write` to an `hlr:` record. -/
def isHlrWriteCall : TCall → Bool
  | TCall.write k => headChar k == some 'h'
  | _ => false

/-- `allBefore p q l`: every `p`-event in `l` occurs before every
`q`-event (no `p`-event strictly after a `q`-event). -/
def allBefore (p q : TCall → Bool) : List TCall → Bool
  | [] => true
  | e :: rest => (!(q e) || rest.all (fun x => !(p x))) && allBefore p q rest

/-- The ordering the spec requires of one protocol operation: every frame
write before every VLR write/delete, and every VLR write/delete before
every HLR write. -/
def frameVlrHlrOrdered (l : List TCall) : Bool :=
  allBefore isFrameWriteCall isVlrWriteCall l &&
  allBefore isVlrWriteCall isHlrWriteCall l

/-- The transport calls one operation issued: the suffix of the trace
beyond what was already there. -/
def emittedTrace (t t' : Transport) : List TCall := t'.trace.drop t.trace.length

/-! ## Store lemmas -/

theorem lookupKV_setKV_self {α : Type} (l : List (String × α)) (k : String) (v : α) :
    lookupKV (setKV l k v) k = some v := by
  induction l with
  | nil => simp [setKV, lookupKV]
  | cons p rest ih =>
      obtain ⟨k', v'⟩ := p
      by_cases h : k' = k
      · simp [setKV, lookupKV, h]
      · simp [setKV, lookupKV, h, ih]

theorem lookupKV_setKV_ne {α : Type} (l : List (String × α)) {k k' : String} (v : α)
    (h : k' ≠ k) : lookupKV (setKV l k' v) k = lookupKV l k := by
  induction l with
  | nil => simp [setKV, lookupKV, h]
  | cons p rest ih =>
      obtain ⟨k'', v''⟩ := p
      by_cases h2 : k'' = k'
      · subst h2
        simp [setKV, lookupKV, h]
      · simp [setKV, h2, lookupKV, ih]

theorem keys_setKV_of_hasKey {α : Type} (l : List (String × α)) (k : String) (v : α)
    (h : hasKeyKV l k = true) :
    (setKV l k v).map Prod.fst = l.map Prod.fst := by
  induction l with
  | nil => simp [hasKeyKV, lookupKV] at h
  | cons p rest ih =>
      obtain ⟨k', v'⟩ := p
      by_cases h2 : k' = k
      · simp [setKV, h2]
      · simp only [hasKeyKV, lookupKV, if_neg h2] at h
        simp [setKV, h2, ih h]

theorem keys_setKV_of_not_hasKey {α : Type} (l : List (String × α)) (k : String) (v : α)
    (h : hasKeyKV l k = false) :
    (setKV l k v).map Prod.fst = l.map Prod.fst ++ [k] := by
  induction l with
  | nil => simp [setKV]
  | cons p rest ih =>
      obtain ⟨k', v'⟩ := p
      by_cases h2 : k' = k
      · simp [hasKeyKV, lookupKV, h2] at h
      · simp only [hasKeyKV, lookupKV, if_neg h2] at h
        simp [setKV, h2, ih h]

theorem hasKeyKV_setKV {α : Type} (l : List (String × α)) (k k' : String) (v : α) :
    hasKeyKV (setKV l k' v) k = (k' = k || hasKeyKV l k) := by
  by_cases h : k' = k
  · subst h
    simp [hasKeyKV, lookupKV_setKV_self]
  · simp [hasKeyKV, lookupKV_setKV_ne l v h, h]

theorem lookupKV_none_of_not_hasKey {α : Type} (l : List (String × α)) (k : String)
    (h : hasKeyKV l k = false) : lookupKV l k = none := by
  simpa [hasKeyKV, Option.isSome_iff_exists] using h

theorem lookupKV_delKV_self {α : Type} (l : List (String × α)) (k : String) :
    lookupKV (delKV l k) k = none := by
  induction l with
  | nil => simp [delKV, lookupKV]
  | cons p rest ih =>
      obtain ⟨k', v'⟩ := p
      by_cases h : k' = k
      · simp [delKV, h, ih]
      · simp [delKV, lookupKV, h, ih]

theorem lookupKV_delKV_ne {α : Type} (l : List (String × α)) {k k' : String}
    (h : k' ≠ k) : lookupKV (delKV l k') k = lookupKV l k := by
  induction l with
  | nil => simp [delKV]
  | cons p rest ih =>
      obtain ⟨k'', v''⟩ := p
      by_cases h2 : k'' = k'
      · subst h2
        simp [delKV, lookupKV, h, ih]
      · simp [delKV, h2, lookupKV, ih]

/-- After a clearing `receiveMessages`, the queue is empty. -/
theorem receiveMessages_clears (t : Transport) (did : String) :
    (lookupKV ((receiveMessages t did true).2).messages did).getD [] = [] := by
  simp only [receiveMessages, tReceiveMessages]
  split
  · simp [tClearMessages, lookupKV_delKV_self]
  · next hcond =>
      simp only [Bool.true_and, decide_eq_true_eq, Nat.not_lt, Nat.le_zero] at hcond
      rcases hx : lookupKV t.messages did with _ | q
      · simp
      · rw [hx] at hcond
        simp only [Option.getD_some] at hcond ⊢
        exact List.length_eq_zero.mp hcond

/-! ## Key disjointness

The four key namespaces start with distinct characters
(`'h'`, `'v'`, `'f'`, `'l'`), so keys of different kinds are never equal
whatever the DID or node id contains. -/

theorem data_head_key (p x : String) (c : Char) (cs : List Char)
    (h : p.data = c :: cs) : (p ++ x).data = c :: (cs ++ x.data) := by
  cases p with
  | mk pd =>
      cases x with
      | mk xd =>
          simp only [String.data] at h
          simp [String.data_append, h]

theorem key_ne_of_head_ne {k1 k2 : String} {c1 c2 : Char} {t1 t2 : List Char}
    (h1 : k1.data = c1 :: t1) (h2 : k2.data = c2 :: t2) (hc : c1 ≠ c2) :
    k1 ≠ k2 := by
  intro h
  subst h
  rw [h1] at h2
  exact hc (List.head_eq_of_cons_eq h2)

theorem hlrKey_data (did : String) :
    (hlrKey did).data = 'h' :: (['l', 'r', ':'] ++ did.data) :=
  data_head_key "hlr:" did 'h' ['l', 'r', ':'] rfl

theorem vlrKey_data (nodeId did : String) :
    ∃ cs, (vlrKey nodeId did).data = 'v' :: cs := by
  have h1 := data_head_key "vlr:" nodeId 'v' ['l', 'r', ':'] rfl
  have h2 := data_head_key ("vlr:" ++ nodeId) ":" 'v' _ h1
  have h3 := data_head_key (("vlr:" ++ nodeId) ++ ":") did 'v' _ h2
  exact ⟨_, h3⟩

theorem frameKey_data (did : String) (seq : Nat) :
    ∃ cs, (frameKey did seq).data = 'f' :: cs := by
  have h1 := data_head_key "frame:" did 'f' ['r', 'a', 'm', 'e', ':'] rfl
  have h2 := data_head_key ("frame:" ++ did) ":" 'f' _ h1
  have h3 := data_head_key (("frame:" ++ did) ++ ":") (Nat.repr seq) 'f' _ h2
  exact ⟨_, h3⟩

theorem latestKey_data (did : String) :
    (latestKey did).data = 'l' :: (['a', 't', 'e', 's', 't', ':'] ++ did.data) :=
  data_head_key "latest:" did 'l' ['a', 't', 'e', 's', 't', ':'] rfl

theorem hlrKey_ne_vlrKey (did nodeId did' : String) : hlrKey did ≠ vlrKey nodeId did' := by
  obtain ⟨cs, hv⟩ := vlrKey_data nodeId did'
  exact key_ne_of_head_ne (hlrKey_data did) hv (by decide)

theorem hlrKey_ne_frameKey (did did' : String) (seq : Nat) :
    hlrKey did ≠ frameKey did' seq := by
  obtain ⟨cs, hf⟩ := frameKey_data did' seq
  exact key_ne_of_head_ne (hlrKey_data did) hf (by decide)

theorem hlrKey_ne_latestKey (did did' : String) : hlrKey did ≠ latestKey did' :=
  key_ne_of_head_ne (hlrKey_data did) (latestKey_data did') (by decide)

theorem vlrKey_ne_frameKey (nodeId did did' : String) (seq : Nat) :
    vlrKey nodeId did ≠ frameKey did' seq := by
  obtain ⟨cs, hv⟩ := vlrKey_data nodeId did
  obtain ⟨cs', hf⟩ := frameKey_data did' seq
  exact key_ne_of_head_ne hv hf (by decide)

theorem vlrKey_ne_latestKey (nodeId did did' : String) :
    vlrKey nodeId did ≠ latestKey did' := by
  obtain ⟨cs, hv⟩ := vlrKey_data nodeId did
  exact key_ne_of_head_ne hv (latestKey_data did') (by decide)

theorem frameKey_ne_latestKey (did did' : String) (seq : Nat) :
    frameKey did seq ≠ latestKey did' := by
  obtain ⟨cs, hf⟩ := frameKey_data did seq
  exact key_ne_of_head_ne hf (latestKey_data did') (by decide)

theorem vlrKey_ne_hlrKey (nodeId did did' : String) : vlrKey nodeId did ≠ hlrKey did' :=
  (hlrKey_ne_vlrKey did' nodeId did).symm

theorem frameKey_ne_hlrKey (did : String) (seq : Nat) (did' : String) :
    frameKey did seq ≠ hlrKey did' :=
  (hlrKey_ne_frameKey did' did seq).symm

theorem latestKey_ne_hlrKey (did did' : String) : latestKey did ≠ hlrKey did' :=
  (hlrKey_ne_latestKey did' did).symm

theorem frameKey_ne_vlrKey (did : String) (seq : Nat) (nodeId did' : String) :
    frameKey did seq ≠ vlrKey nodeId did' :=
  (vlrKey_ne_frameKey nodeId did' did seq).symm

theorem latestKey_ne_vlrKey (did nodeId did' : String) :
    latestKey did ≠ vlrKey nodeId did' :=
  (vlrKey_ne_latestKey nodeId did' did).symm

theorem latestKey_ne_frameKey (did did' : String) (seq : Nat) :
    latestKey did ≠ frameKey did' seq :=
  (frameKey_ne_latestKey did' did seq).symm

/-! ## Key head-character lemmas -/

@[simp] theorem headChar_hlrKey (did : String) : headChar (hlrKey did) = some 'h' := by
  rw [headChar, hlrKey_data]
  rfl

@[simp] theorem headChar_vlrKey (nodeId did : String) :
    headChar (vlrKey nodeId did) = some 'v' := by
  obtain ⟨cs, h⟩ := vlrKey_data nodeId did
  rw [headChar, h]
  rfl

@[simp] theorem headChar_frameKey (did : String) (seq : Nat) :
    headChar (frameKey did seq) = some 'f' := by
  obtain ⟨cs, h⟩ := frameKey_data did seq
  rw [headChar, h]
  rfl

@[simp] theorem headChar_latestKey (did : String) :
    headChar (latestKey did) = some 'l' := by
  rw [headChar, latestKey_data]
  rfl

/-! ## Transport projection lemmas -/

@[simp] theorem tWrite_frames (t : Transport) (k : String) (v : StoreValue) :
    (tWrite t k v).frames = setKV t.frames k v := rfl

@[simp] theorem tWrite_messages (t : Transport) (k : String) (v : StoreValue) :
    (tWrite t k v).messages = t.messages := rfl

@[simp] theorem tRead_fst (t : Transport) (k : String) :
    (tRead t k).1 = lookupKV t.frames k := rfl

@[simp] theorem tRead_snd_frames (t : Transport) (k : String) :
    ((tRead t k).2).frames = t.frames := rfl

@[simp] theorem tRead_snd_messages (t : Transport) (k : String) :
    ((tRead t k).2).messages = t.messages := rfl

@[simp] theorem tDelete_frames (t : Transport) (k : String) :
    (tDelete t k).frames = delKV t.frames k := rfl

@[simp] theorem tDelete_messages (t : Transport) (k : String) :
    (tDelete t k).messages = t.messages := rfl

@[simp] theorem tReceiveMessages_fst (t : Transport) (did : String) :
    (tReceiveMessages t did).1 = (lookupKV t.messages did).getD [] := rfl

@[simp] theorem tReceiveMessages_snd_frames (t : Transport) (did : String) :
    ((tReceiveMessages t did).2).frames = t.frames := rfl

@[simp] theorem tReceiveMessages_snd_messages (t : Transport) (did : String) :
    ((tReceiveMessages t did).2).messages = t.messages := rfl

@[simp] theorem tClearMessages_frames (t : Transport) (did : String) :
    (tClearMessages t did).frames = t.frames := rfl

@[simp] theorem tClearMessages_messages (t : Transport) (did : String) :
    (tClearMessages t did).messages = delKV t.messages did := rfl

@[simp] theorem receiveMessages_fst (t : Transport) (did : String) (clear : Bool) :
    (receiveMessages t did clear).1 = (lookupKV t.messages did).getD [] := by
  simp only [receiveMessages, tReceiveMessages]
  split <;> rfl

@[simp] theorem receiveMessages_snd_frames (t : Transport) (did : String) (clear : Bool) :
    ((receiveMessages t did clear).2).frames = t.frames := by
  simp only [receiveMessages, tReceiveMessages]
  split <;> rfl

/-! ## Reader inversion lemmas -/

theorem readHomeRecord_fst_eq_some (t : Transport) (did : String) (r : HomeRecord) :
    (readHomeRecord t did).1 = some r ↔
      lookupKV t.frames (hlrKey did) = some (StoreValue.hlr r) := by
  cases h : lookupKV t.frames (hlrKey did) with
  | none => simp [readHomeRecord, tRead, h]
  | some v => cases v <;> simp [readHomeRecord, tRead, h]

theorem readHomeRecord_fst_eq_none (t : Transport) (did : String) :
    (readHomeRecord t did).1 = none ↔
      ∀ r, lookupKV t.frames (hlrKey did) ≠ some (StoreValue.hlr r) := by
  cases h : lookupKV t.frames (hlrKey did) with
  | none => simp [readHomeRecord, tRead, h]
  | some v => cases v <;> simp [readHomeRecord, tRead, h]

theorem readVisitorRecord_fst_eq_some (t : Transport) (nodeId did : String)
    (r : VisitorRecord) :
    (readVisitorRecord t nodeId did).1 = some r ↔
      lookupKV t.frames (vlrKey nodeId did) = some (StoreValue.vlr r) := by
  cases h : lookupKV t.frames (vlrKey nodeId did) with
  | none => simp [readVisitorRecord, tRead, h]
  | some v => cases v <;> simp [readVisitorRecord, tRead, h]

theorem readVisitorRecord_fst_eq_none (t : Transport) (nodeId did : String) :
    (readVisitorRecord t nodeId did).1 = none ↔
      ∀ r, lookupKV t.frames (vlrKey nodeId did) ≠ some (StoreValue.vlr r) := by
  cases h : lookupKV t.frames (vlrKey nodeId did) with
  | none => simp [readVisitorRecord, tRead, h]
  | some v => cases v <;> simp [readVisitorRecord, tRead, h]

theorem readLatestFrame_fst_eq_some (t : Transport) (did : String) (f : SignalFrame) :
    (readLatestFrame t did).1 = some f ↔
      lookupKV t.frames (latestKey did) = some (StoreValue.frame f) := by
  cases h : lookupKV t.frames (latestKey did) with
  | none => simp [readLatestFrame, tRead, h]
  | some v => cases v <;> simp [readLatestFrame, tRead, h]

/-! ## Hash lemmas -/

theorem hash_sha_ne_parent (v ft : String) (i : SovereignIdentity) (n : NodeIdentity)
    (tk td tn : String) (sq bc : Nat) (st cst : String) (sc lv : Nat)
    (cv ci rt ot pr : List String) (ph : Hash) (ca : Nat) :
    Hash.sha v ft i n tk td tn sq bc st cst sc lv cv ci rt ot pr ph ca ≠ ph := by
  intro h
  have hs := congrArg sizeOf h
  simp only [Hash.sha.sizeOf_spec] at hs
  omega

/-- The digest of a frame's content is never the frame's own `parentHash`
(a digest cannot contain itself). -/
theorem computeFrameHash_ne_parentHash (f : SignalFrame) :
    computeFrameHash f ≠ f.parentHash :=
  hash_sha_ne_parent _ _ _ _ _ _ _ _ _ _ _ _ _ _ _ _ _ _ _ _

/-! ## Wake path helper lemmas -/

/-- When the VLR fast path does not fire (no visitor record, or an expired
one), `wake` is `wakeFromHome` on the read-traced transport, with some
warning list. -/
theorem wake_eq_wakeFromHome (t : Transport) (identity : SovereignIdentity)
    (node : NodeIdentity) (now : Nat) (tok : String)
    (h : (readVisitorRecord t node.nodeId identity.did).1 = none ∨
      ∃ v, (readVisitorRecord t node.nodeId identity.did).1 = some v ∧
        isTokenExpired v.sessionToken now = true) :
    ∃ ws, wake t identity node now tok =
      wakeFromHome ((readVisitorRecord t node.nodeId identity.did).2)
        identity node now tok ws := by
  rcases h with hnone | ⟨v, hsome, hexp⟩
  · exact ⟨[], by simp [wake, hnone]⟩
  · exact ⟨["VLR session expired, falling through to HLR"], by simp [wake, hsome, hexp]⟩

/-- The capsule path of `wakeFromHome`: an HLR and a latest frame that
verifies.  Characterises the result and the updated HLR. -/
theorem wakeFromHome_capsule_path (t : Transport) (identity : SovereignIdentity)
    (node : NodeIdentity) (now : Nat) (tok : String) (ws : List String)
    (hlr : HomeRecord) (lf : SignalFrame)
    (hdid : hlr.identity.did = identity.did)
    (hh : lookupKV t.frames (hlrKey identity.did) = some (StoreValue.hlr hlr))
    (hl : lookupKV t.frames (latestKey identity.did) = some (StoreValue.frame lf))
    (hverify : verifyFrameHash lf = true) :
    (wakeFromHome t identity node now tok ws).1.success = true ∧
    (wakeFromHome t identity node now tok ws).1.restoreMethod = "capsule" ∧
    (wakeFromHome t identity node now tok ws).1.frame.stage = lf.stage ∧
    (wakeFromHome t identity node now tok ws).1.frame.continuityState = lf.continuityState ∧
    (wakeFromHome t identity node now tok ws).1.frame.continuityScore = lf.continuityScore ∧
    (wakeFromHome t identity node now tok ws).1.frame.level = lf.level ∧
    (wakeFromHome t identity node now tok ws).1.frame.coreValues = lf.coreValues ∧
    (wakeFromHome t identity node now tok ws).1.frame.coreInterests = lf.coreInterests ∧
    (wakeFromHome t identity node now tok ws).1.frame.recentThemes = lf.recentThemes ∧
    (wakeFromHome t identity node now tok ws).1.frame.openThreads = lf.openThreads ∧
    (wakeFromHome t identity node now tok ws).1.frame.priorities = lf.priorities ∧
    (wakeFromHome t identity node now tok ws).1.frame.parentHash = lf.frameHash ∧
    (wakeFromHome t identity node now tok ws).1.frame.sessionToken.sequenceNumber
      = lf.sessionToken.sequenceNumber + 1 ∧
    (wakeFromHome t identity node now tok ws).1.frame.bootCount = hlr.bootCount + 1 ∧
    (readHomeRecord (wakeFromHome t identity node now tok ws).2 identity.did).1 =
      some { hlr with
             bootCount := hlr.bootCount + 1
             currentNodeId := some node.nodeId
             lastCapsuleHash := (wakeFromHome t identity node now tok ws).1.frame.frameHash
             updatedAt := now } := by
  simp [wakeFromHome, readHomeRecord, readLatestFrame,
    incrementBoot, updateHomeRecord, writeHomeRecord, writeFrame,
    writeVisitorRecord, createVisitorRecord,
    hdid, hh, hl, hverify,
    lookupKV_setKV_self, lookupKV_setKV_ne,
    hlrKey_ne_vlrKey, hlrKey_ne_frameKey, hlrKey_ne_latestKey,
    vlrKey_ne_hlrKey, vlrKey_ne_frameKey, vlrKey_ne_latestKey,
    frameKey_ne_hlrKey, frameKey_ne_vlrKey, frameKey_ne_latestKey,
    latestKey_ne_hlrKey, latestKey_ne_vlrKey, latestKey_ne_frameKey,
    buildFrame, createSessionToken]

/-- The demoted path of `wakeFromHome`: an HLR, and a latest frame that
fails hash verification.  The call still succeeds: the boot frame is built
from the HLR's own fields, `restoreMethod` is demoted to `"hlr"`, and a
warning is appended. -/
theorem wakeFromHome_demoted_path (t : Transport) (identity : SovereignIdentity)
    (node : NodeIdentity) (now : Nat) (tok : String) (ws : List String)
    (hlr : HomeRecord) (lf : SignalFrame)
    (hdid : hlr.identity.did = identity.did)
    (hh : lookupKV t.frames (hlrKey identity.did) = some (StoreValue.hlr hlr))
    (hl : lookupKV t.frames (latestKey identity.did) = some (StoreValue.frame lf))
    (hverify : verifyFrameHash lf = false) :
    (wakeFromHome t identity node now tok ws).1.success = true ∧
    (wakeFromHome t identity node now tok ws).1.restoreMethod = "hlr" ∧
    (wakeFromHome t identity node now tok ws).1.frame.stage = hlr.stage ∧
    (wakeFromHome t identity node now tok ws).1.frame.continuityState = hlr.continuityState ∧
    (wakeFromHome t identity node now tok ws).1.frame.continuityScore = hlr.continuityScore ∧
    (wakeFromHome t identity node now tok ws).1.frame.level = hlr.level ∧
    (wakeFromHome t identity node now tok ws).1.frame.coreValues = hlr.coreValues ∧
    (wakeFromHome t identity node now tok ws).1.frame.coreInterests = hlr.coreInterests ∧
    (wakeFromHome t identity node now tok ws).1.frame.recentThemes = [] ∧
    (wakeFromHome t identity node now tok ws).1.frame.openThreads = [] ∧
    (wakeFromHome t identity node now tok ws).1.frame.priorities = [] ∧
    (wakeFromHome t identity node now tok ws).1.frame.parentHash = hlr.lastCapsuleHash ∧
    (wakeFromHome t identity node now tok ws).1.frame.sessionToken.sequenceNumber
      = lf.sessionToken.sequenceNumber + 1 ∧
    (wakeFromHome t identity node now tok ws).1.warnings =
      ws ++ ["Frame hash verification failed — using HLR as fallback"] := by
  simp [wakeFromHome, readHomeRecord, readLatestFrame,
    incrementBoot, updateHomeRecord, writeHomeRecord, writeFrame,
    writeVisitorRecord, createVisitorRecord,
    hdid, hh, hl, hverify,
    lookupKV_setKV_self, lookupKV_setKV_ne,
    buildFrame, createSessionToken]

/-- The genesis path of `wakeFromHome`: no HLR at all.  One HLR (boot
count 1), one genesis frame (archive + latest), and one home VLR are
created; the key list grows by exactly those four keys. -/
theorem wakeFromHome_genesis_path (t : Transport) (identity : SovereignIdentity)
    (node : NodeIdentity) (now : Nat) (tok : String) (ws : List String)
    (hh : hasKeyKV t.frames (hlrKey identity.did) = false)
    (hf : hasKeyKV t.frames (frameKey identity.did 1) = false)
    (hl : hasKeyKV t.frames (latestKey identity.did) = false)
    (hv : hasKeyKV t.frames (vlrKey node.nodeId identity.did) = false) :
    (wakeFromHome t identity node now tok ws).1.success = true ∧
    (wakeFromHome t identity node now tok ws).1.restoreMethod = "genesis" ∧
    (wakeFromHome t identity node now tok ws).1.continuityScore = 0 ∧
    (wakeFromHome t identity node now tok ws).1.frame = genesisFrame identity node now tok ∧
    (readHomeRecord (wakeFromHome t identity node now tok ws).2 identity.did).1 =
      some { createHomeRecord identity node.nodeId now with bootCount := 1 } ∧
    (readFrame (wakeFromHome t identity node now tok ws).2 identity.did 1).1 =
      some (genesisFrame identity node now tok) ∧
    (readLatestFrame (wakeFromHome t identity node now tok ws).2 identity.did).1 =
      some (genesisFrame identity node now tok) ∧
    (readVisitorRecord (wakeFromHome t identity node now tok ws).2 node.nodeId
        identity.did).1 =
      some (createVisitorRecord identity.did (genesisFrame identity node now tok).sessionToken
        (genesisFrame identity node now tok) true now) ∧
    ((wakeFromHome t identity node now tok ws).2).frames.map Prod.fst =
      t.frames.map Prod.fst ++ [hlrKey identity.did, frameKey identity.did 1,
        latestKey identity.did, vlrKey node.nodeId identity.did] := by
  have hh0 : lookupKV t.frames (hlrKey identity.did) = none :=
    lookupKV_none_of_not_hasKey _ _ hh
  simp [wakeFromHome, readHomeRecord, readFrame, readLatestFrame, readVisitorRecord,
    writeHomeRecord, writeFrame, writeVisitorRecord, createHomeRecord,
    createVisitorRecord,
    hh0, hh, hf, hl, hv,
    genesisFrame, buildFrame, createSessionToken,
    lookupKV_setKV_self, lookupKV_setKV_ne,
    keys_setKV_of_not_hasKey, hasKeyKV_setKV,
    hlrKey_ne_vlrKey, hlrKey_ne_frameKey, hlrKey_ne_latestKey,
    vlrKey_ne_hlrKey, vlrKey_ne_frameKey, vlrKey_ne_latestKey,
    frameKey_ne_hlrKey, frameKey_ne_vlrKey, frameKey_ne_latestKey,
    latestKey_ne_hlrKey, latestKey_ne_vlrKey, latestKey_ne_frameKey]

/-- `touchVisitorRecord` never changes what is stored under a frame
archive key. -/
theorem touchVisitorRecord_lookup_frameKey (t : Transport) (nodeId did : String)
    (now : Nat) (d : String) (s : Nat) :
    lookupKV (touchVisitorRecord t nodeId did now).frames (frameKey d s)
      = lookupKV t.frames (frameKey d s) := by
  unfold touchVisitorRecord readVisitorRecord
  dsimp only
  split
  · rfl
  · simp [writeVisitorRecord, lookupKV_setKV_ne, vlrKey_ne_frameKey]

/-! ## Claims -/

/-- **C2** (confirmed).  Capsule fallback: with no (or an expired) VLR at
the waking node, an HLR whose stored identity matches the waking DID, and
a latest frame that passes hash verification, `wake` returns
`restoreMethod = "capsule"` with every lifecycle field taken from that
latest frame (the frame last written via `handoff`), and the HLR's
`bootCount` is incremented by one. -/
theorem wake_capsule_restores_handoff_state (t : Transport)
    (identity : SovereignIdentity) (node : NodeIdentity) (now : Nat)
    (tok : String) (hlr : HomeRecord) (lf : SignalFrame)
    (hdid : hlr.identity.did = identity.did)
    (hvlr : (readVisitorRecord t node.nodeId identity.did).1 = none ∨
      ∃ v, (readVisitorRecord t node.nodeId identity.did).1 = some v ∧
        isTokenExpired v.sessionToken now = true)
    (hh : (readHomeRecord t identity.did).1 = some hlr)
    (hl : (readLatestFrame t identity.did).1 = some lf)
    (hverify : verifyFrameHash lf = true) :
    (wake t identity node now tok).1.success = true ∧
    (wake t identity node now tok).1.restoreMethod = "capsule" ∧
    (wake t identity node now tok).1.frame.stage = lf.stage ∧
    (wake t identity node now tok).1.frame.continuityScore = lf.continuityScore ∧
    (wake t identity node now tok).1.frame.continuityState = lf.continuityState ∧
    (wake t identity node now tok).1.frame.level = lf.level ∧
    (wake t identity node now tok).1.frame.coreValues = lf.coreValues ∧
    (wake t identity node now tok).1.frame.coreInterests = lf.coreInterests ∧
    (wake t identity node now tok).1.frame.recentThemes = lf.recentThemes ∧
    (wake t identity node now tok).1.frame.openThreads = lf.openThreads ∧
    (wake t identity node now tok).1.frame.priorities = lf.priorities ∧
    ∃ hlr2, (readHomeRecord (wake t identity node now tok).2 identity.did).1 = some hlr2 ∧
      hlr2.bootCount = hlr.bootCount + 1 := by
  obtain ⟨ws, hw⟩ := wake_eq_wakeFromHome t identity node now tok hvlr
  have hh' : lookupKV ((readVisitorRecord t node.nodeId identity.did).2).frames
      (hlrKey identity.did) = some (StoreValue.hlr hlr) := by
    have hx := (readHomeRecord_fst_eq_some t identity.did hlr).1 hh
    simpa [readVisitorRecord] using hx
  have hl' : lookupKV ((readVisitorRecord t node.nodeId identity.did).2).frames
      (latestKey identity.did) = some (StoreValue.frame lf) := by
    have hx := (readLatestFrame_fst_eq_some t identity.did lf).1 hl
    simpa [readVisitorRecord] using hx
  obtain ⟨h1, h2, h3, h4, h5, h6, h7, h8, h9, h10, h11, h12, h13, h14, h15⟩ :=
    wakeFromHome_capsule_path ((readVisitorRecord t node.nodeId identity.did).2)
      identity node now tok ws hlr lf hdid hh' hl' hverify
  rw [hw]
  exact ⟨h1, h2, h3, h5, h4, h6, h7, h8, h9, h10, h11, ⟨_, h15, rfl⟩⟩

/-- **C2 witness.**  The spec's two-session scenario: after genesis,
handoff (`stage := "nascent"`, `continuityScore := 30`) and VLR deletion,
`wake` restores from the capsule with the handoff's lifecycle fields and
boot count 2. -/
theorem wake_capsule_restores_handoff_state_witness :
    (wake sampleStore2 sampleIdentity sampleNode 3000 "tok-c").1.restoreMethod = "capsule" ∧
    (wake sampleStore2 sampleIdentity sampleNode 3000 "tok-c").1.frame.stage
      = sampleLatest2.stage ∧
    (wake sampleStore2 sampleIdentity sampleNode 3000 "tok-c").1.frame.continuityScore
      = sampleLatest2.continuityScore ∧
    ∃ hlr2, (readHomeRecord (wake sampleStore2 sampleIdentity sampleNode 3000 "tok-c").2
        sampleIdentity.did).1 = some hlr2 ∧
      hlr2.bootCount = sampleHlr2.bootCount + 1 := by
  have h := wake_capsule_restores_handoff_state sampleStore2 sampleIdentity sampleNode
    3000 "tok-c" sampleHlr2 sampleLatest2 (by decide) (Or.inl (by decide))
    (by decide) (by decide) (by decide)
  exact ⟨h.2.1, h.2.2.1, h.2.2.2.1, h.2.2.2.2.2.2.2.2.2.2.2⟩

/-- **C6** (confirmed).  Integrity failure is non-fatal: with an HLR
present and a latest frame that fails `verifyFrameHash`, `wake` succeeds
with `restoreMethod` demoted to `"hlr"`, builds the boot frame from the
HomeRecord's own fields with `parentHash = hlr.lastCapsuleHash`, and
appends a warning string instead of throwing. -/
theorem wake_demotes_to_hlr_on_bad_hash (t : Transport)
    (identity : SovereignIdentity) (node : NodeIdentity) (now : Nat)
    (tok : String) (hlr : HomeRecord) (lf : SignalFrame)
    (hdid : hlr.identity.did = identity.did)
    (hvlr : (readVisitorRecord t node.nodeId identity.did).1 = none ∨
      ∃ v, (readVisitorRecord t node.nodeId identity.did).1 = some v ∧
        isTokenExpired v.sessionToken now = true)
    (hh : (readHomeRecord t identity.did).1 = some hlr)
    (hl : (readLatestFrame t identity.did).1 = some lf)
    (hverify : verifyFrameHash lf = false) :
    (wake t identity node now tok).1.success = true ∧
    (wake t identity node now tok).1.restoreMethod = "hlr" ∧
    (wake t identity node now tok).1.frame.stage = hlr.stage ∧
    (wake t identity node now tok).1.frame.continuityState = hlr.continuityState ∧
    (wake t identity node now tok).1.frame.continuityScore = hlr.continuityScore ∧
    (wake t identity node now tok).1.frame.level = hlr.level ∧
    (wake t identity node now tok).1.frame.coreValues = hlr.coreValues ∧
    (wake t identity node now tok).1.frame.coreInterests = hlr.coreInterests ∧
    (wake t identity node now tok).1.frame.parentHash = hlr.lastCapsuleHash ∧
    "Frame hash verification failed — using HLR as fallback"
      ∈ (wake t identity node now tok).1.warnings := by
  obtain ⟨ws, hw⟩ := wake_eq_wakeFromHome t identity node now tok hvlr
  have hh' : lookupKV ((readVisitorRecord t node.nodeId identity.did).2).frames
      (hlrKey identity.did) = some (StoreValue.hlr hlr) := by
    have hx := (readHomeRecord_fst_eq_some t identity.did hlr).1 hh
    simpa [readVisitorRecord] using hx
  have hl' : lookupKV ((readVisitorRecord t node.nodeId identity.did).2).frames
      (latestKey identity.did) = some (StoreValue.frame lf) := by
    have hx := (readLatestFrame_fst_eq_some t identity.did lf).1 hl
    simpa [readVisitorRecord] using hx
  obtain ⟨h1, h2, h3, h4, h5, h6, h7, h8, h9, h10, h11, h12, h13, h14⟩ :=
    wakeFromHome_demoted_path ((readVisitorRecord t node.nodeId identity.did).2)
      identity node now tok ws hlr lf hdid hh' hl' hverify
  rw [hw]
  refine ⟨h1, h2, h3, h4, h5, h6, h7, h8, h12, ?_⟩
  rw [h14]
  simp

/-- **C6 witness.**  Corrupting the latest frame's `continuityScore` in
the two-session store demotes the next `wake` to the HLR tier with the
warning, still succeeding. -/
theorem wake_demotes_to_hlr_on_bad_hash_witness :
    (wake corruptStore sampleIdentity sampleNode 3000 "tok-c").1.success = true ∧
    (wake corruptStore sampleIdentity sampleNode 3000 "tok-c").1.restoreMethod = "hlr" ∧
    (wake corruptStore sampleIdentity sampleNode 3000 "tok-c").1.frame.stage
      = sampleHlr2.stage ∧
    "Frame hash verification failed — using HLR as fallback"
      ∈ (wake corruptStore sampleIdentity sampleNode 3000 "tok-c").1.warnings := by
  have h := wake_demotes_to_hlr_on_bad_hash corruptStore sampleIdentity sampleNode
    3000 "tok-c" sampleHlr2 corruptLatest (by decide) (Or.inl (by decide))
    (by decide) (by decide) (by decide)
  exact ⟨h.1, h.2.1, h.2.2.1, h.2.2.2.2.2.2.2.2.2⟩

/-- **C3** (confirmed).  VLR fast path: with a non-expired VLR at the
waking node, `wake` succeeds with `restoreMethod = "vlr"`, returns the
VLR's cached capsule and session token, delivers and clears the queued
messages, touches the VLR's `lastActivity`, and writes no new frame: the
key set of the store is unchanged. -/
theorem wake_vlr_fast_path (t : Transport) (identity : SovereignIdentity)
    (node : NodeIdentity) (now : Nat) (tok : String) (vlr : VisitorRecord)
    (hdid : vlr.did = identity.did)
    (hvlr : (readVisitorRecord t node.nodeId identity.did).1 = some vlr)
    (hexp : isTokenExpired vlr.sessionToken now = false) :
    (wake t identity node now tok).1.success = true ∧
    (wake t identity node now tok).1.restoreMethod = "vlr" ∧
    (wake t identity node now tok).1.frame = vlr.capsule ∧
    (wake t identity node now tok).1.sessionToken = vlr.sessionToken ∧
    (wake t identity node now tok).1.pendingMessages
      = (lookupKV t.messages identity.did).getD [] ∧
    (lookupKV ((wake t identity node now tok).2).messages identity.did).getD [] = [] ∧
    (readVisitorRecord (wake t identity node now tok).2 node.nodeId identity.did).1
      = some { vlr with lastActivity := now } ∧
    ((wake t identity node now tok).2).frames.map Prod.fst = t.frames.map Prod.fst := by
  have hv' : lookupKV t.frames (vlrKey node.nodeId identity.did)
      = some (StoreValue.vlr vlr) :=
    (readVisitorRecord_fst_eq_some t node.nodeId identity.did vlr).1 hvlr
  simp [wake, readVisitorRecord, hv', hexp, hdid,
    touchVisitorRecord, writeVisitorRecord,
    lookupKV_setKV_self, keys_setKV_of_hasKey, hasKeyKV,
    receiveMessages_clears]

/-- **C3 witness.**  On the post-genesis store with one queued message,
`wake` at the same node takes the VLR path, returns the cached capsule,
delivers the message, and leaves the store's key set unchanged. -/
theorem wake_vlr_fast_path_witness :
    (wake sampleStore1 sampleIdentity sampleNode 2000 "tok-z").1.restoreMethod = "vlr" ∧
    (wake sampleStore1 sampleIdentity sampleNode 2000 "tok-z").1.frame
      = sampleVlr1.capsule ∧
    (wake sampleStore1 sampleIdentity sampleNode 2000 "tok-z").1.pendingMessages
      = [sampleMessage] ∧
    ((wake sampleStore1 sampleIdentity sampleNode 2000 "tok-z").2).frames.map Prod.fst
      = sampleStore1.frames.map Prod.fst := by
  have h := wake_vlr_fast_path sampleStore1 sampleIdentity sampleNode 2000 "tok-z"
    sampleVlr1 (by decide) (by decide) (by decide)
  exact ⟨h.2.1, h.2.2.1, by rw [h.2.2.2.2.1]; decide, h.2.2.2.2.2.2.2⟩

/-- **C4** (confirmed).  Genesis: on a store with no records for the DID,
`wake` succeeds with `restoreMethod = "genesis"`, `continuityScore = 0`,
and creates exactly one HLR (`bootCount = 1`), one boot frame
(`sequenceNumber = 1`, `stage = "void"`, `continuityState = "genesis"`,
all-zero `parentHash`) stored in both the archive and latest slots, and
one home VLR at the waking node — the store's key list grows by exactly
those four keys. -/
theorem wake_genesis_creates_records (t : Transport)
    (identity : SovereignIdentity) (node : NodeIdentity) (now : Nat) (tok : String)
    (hh : hasKeyKV t.frames (hlrKey identity.did) = false)
    (hf : hasKeyKV t.frames (frameKey identity.did 1) = false)
    (hl : hasKeyKV t.frames (latestKey identity.did) = false)
    (hv : hasKeyKV t.frames (vlrKey node.nodeId identity.did) = false) :
    (wake t identity node now tok).1.success = true ∧
    (wake t identity node now tok).1.restoreMethod = "genesis" ∧
    (wake t identity node now tok).1.continuityScore = 0 ∧
    (∃ hr, (readHomeRecord (wake t identity node now tok).2 identity.did).1 = some hr ∧
      hr.bootCount = 1) ∧
    (∃ f, (readFrame (wake t identity node now tok).2 identity.did 1).1 = some f ∧
      (readLatestFrame (wake t identity node now tok).2 identity.did).1 = some f ∧
      f.frameType = "boot" ∧ f.sessionToken.sequenceNumber = 1 ∧
      f.stage = "void" ∧ f.continuityState = "genesis" ∧
      f.parentHash = Hash.zeros ∧ f.bootCount = 1) ∧
    (∃ v, (readVisitorRecord (wake t identity node now tok).2 node.nodeId
        identity.did).1 = some v ∧ v.isHome = true) ∧
    ((wake t identity node now tok).2).frames.map Prod.fst =
      t.frames.map Prod.fst ++ [hlrKey identity.did, frameKey identity.did 1,
        latestKey identity.did, vlrKey node.nodeId identity.did] := by
  have hvnone : (readVisitorRecord t node.nodeId identity.did).1 = none := by
    have h0 := lookupKV_none_of_not_hasKey _ _ hv
    simp [readVisitorRecord, h0]
  obtain ⟨ws, hw⟩ := wake_eq_wakeFromHome t identity node now tok (Or.inl hvnone)
  have ht1 : ((readVisitorRecord t node.nodeId identity.did).2).frames = t.frames := by
    simp [readVisitorRecord]
  obtain ⟨h1, h2, h3, h4, h5, h6, h7, h8, h9⟩ :=
    wakeFromHome_genesis_path ((readVisitorRecord t node.nodeId identity.did).2)
      identity node now tok ws (by rw [ht1]; exact hh) (by rw [ht1]; exact hf)
      (by rw [ht1]; exact hl) (by rw [ht1]; exact hv)
  rw [hw]
  refine ⟨h1, h2, h3, ⟨_, h5, rfl⟩, ⟨genesisFrame identity node now tok, h6, h7,
    rfl, rfl, rfl, rfl, rfl, rfl⟩, ⟨_, h8, rfl⟩, ?_⟩
  rw [h9, ht1]

/-- **C4 witness.**  Genesis `wake` on the empty store. -/
theorem wake_genesis_creates_records_witness :
    (wake emptyTransport sampleIdentity sampleNode 1000 "tok-a").1.restoreMethod
      = "genesis" ∧
    (wake emptyTransport sampleIdentity sampleNode 1000 "tok-a").1.continuityScore = 0 ∧
    (∃ hr, (readHomeRecord (wake emptyTransport sampleIdentity sampleNode 1000
        "tok-a").2 sampleIdentity.did).1 = some hr ∧ hr.bootCount = 1) ∧
    ((wake emptyTransport sampleIdentity sampleNode 1000 "tok-a").2).frames.map Prod.fst =
      [hlrKey sampleIdentity.did, frameKey sampleIdentity.did 1,
        latestKey sampleIdentity.did, vlrKey sampleNode.nodeId sampleIdentity.did] := by
  have h := wake_genesis_creates_records emptyTransport sampleIdentity sampleNode
    1000 "tok-a" (by decide) (by decide) (by decide) (by decide)
  exact ⟨h.2.1, h.2.2.1, h.2.2.2.1, by
    have h9 := h.2.2.2.2.2.2
    simpa [emptyTransport] using h9⟩

/-- **C8** (confirmed).  Chain integrity: for any
`genesisFrame → handoffFrame → handoffFrame` chain (any identity, node,
clock values, token values and update objects), each frame's `parentHash`
equals the previous frame's `frameHash`, and the three `frameHash` values
are pairwise distinct. -/
theorem chain_parentHash_and_distinct (identity : SovereignIdentity)
    (node : NodeIdentity) (now1 now2 now3 : Nat) (tok1 tok2 tok3 : String)
    (u1 u2 : HandoffUpdates) :
    (handoffFrame (genesisFrame identity node now1 tok1) node u1 now2 tok2).parentHash
        = (genesisFrame identity node now1 tok1).frameHash ∧
    (handoffFrame (handoffFrame (genesisFrame identity node now1 tok1) node u1 now2 tok2)
        node u2 now3 tok3).parentHash
        = (handoffFrame (genesisFrame identity node now1 tok1) node u1 now2 tok2).frameHash ∧
    (genesisFrame identity node now1 tok1).frameHash
        ≠ (handoffFrame (genesisFrame identity node now1 tok1) node u1 now2 tok2).frameHash ∧
    (genesisFrame identity node now1 tok1).frameHash
        ≠ (handoffFrame (handoffFrame (genesisFrame identity node now1 tok1) node u1 now2 tok2)
            node u2 now3 tok3).frameHash ∧
    (handoffFrame (genesisFrame identity node now1 tok1) node u1 now2 tok2).frameHash
        ≠ (handoffFrame (handoffFrame (genesisFrame identity node now1 tok1) node u1 now2 tok2)
            node u2 now3 tok3).frameHash := by
  refine ⟨rfl, rfl, ?_, ?_, ?_⟩ <;>
    simp [genesisFrame, handoffFrame, buildFrame, createSessionToken,
      computeFrameHash, Hash.sha.injEq]

/-- **C5** (corrected).  Sequence-number progression: `handoffFrame`, the
`roam` and `home` frames, and a `wake` that restores from an existing
latest frame all mint `sequenceNumber = previous + 1` — but (contrary to
the claim as stated) `keepaliveFrame` reuses the previous frame's
sequence number unchanged (no `+1`), so the sequence is merely
non-decreasing, not strictly incremented on every new frame. -/
theorem sequence_number_progression :
    (∀ (f : SignalFrame) (node : NodeIdentity) (u : HandoffUpdates) (now : Nat)
        (tok : String),
      (handoffFrame f node u now tok).sessionToken.sequenceNumber
        = f.sessionToken.sequenceNumber + 1) ∧
    (∀ (f : SignalFrame) (node : NodeIdentity) (now : Nat),
      (keepaliveFrame f node now).sessionToken.sequenceNumber
        = f.sessionToken.sequenceNumber) ∧
    (∀ (t : Transport) (f : SignalFrame) (hn vn : NodeIdentity) (now : Nat)
        (tok : String),
      (roam t f hn vn now tok).1.visitorRecord.capsule.sessionToken.sequenceNumber
        = f.sessionToken.sequenceNumber + 1) ∧
    (∀ (t : Transport) (f : SignalFrame) (hn : NodeIdentity) (fid : String)
        (now : Nat) (tok : String),
      (home t f hn fid now tok).1.frame.sessionToken.sequenceNumber
        = f.sessionToken.sequenceNumber + 1) ∧
    (∀ (t : Transport) (identity : SovereignIdentity) (node : NodeIdentity)
        (now : Nat) (tok : String) (hlr : HomeRecord) (lf : SignalFrame),
      hlr.identity.did = identity.did →
      ((readVisitorRecord t node.nodeId identity.did).1 = none ∨
        ∃ v, (readVisitorRecord t node.nodeId identity.did).1 = some v ∧
          isTokenExpired v.sessionToken now = true) →
      (readHomeRecord t identity.did).1 = some hlr →
      (readLatestFrame t identity.did).1 = some lf →
      (wake t identity node now tok).1.frame.sessionToken.sequenceNumber
        = lf.sessionToken.sequenceNumber + 1) := by
  refine ⟨fun f node u now tok => rfl, fun f node now => rfl, ?_, fun t f hn fid now tok => rfl, ?_⟩
  · intro t f hn vn now tok
    unfold roam
    dsimp only
    split <;> rfl
  · intro t identity node now tok hlr lf hdid hvlr hh hl
    obtain ⟨ws, hw⟩ := wake_eq_wakeFromHome t identity node now tok hvlr
    have hh' : lookupKV ((readVisitorRecord t node.nodeId identity.did).2).frames
        (hlrKey identity.did) = some (StoreValue.hlr hlr) := by
      have hx := (readHomeRecord_fst_eq_some t identity.did hlr).1 hh
      simpa [readVisitorRecord] using hx
    have hl' : lookupKV ((readVisitorRecord t node.nodeId identity.did).2).frames
        (latestKey identity.did) = some (StoreValue.frame lf) := by
      have hx := (readLatestFrame_fst_eq_some t identity.did lf).1 hl
      simpa [readVisitorRecord] using hx
    rw [hw]
    cases hverify : verifyFrameHash lf with
    | true =>
        exact (wakeFromHome_capsule_path _ identity node now tok ws hlr lf
          hdid hh' hl' hverify).2.2.2.2.2.2.2.2.2.2.2.2.1
    | false =>
        exact (wakeFromHome_demoted_path _ identity node now tok ws hlr lf
          hdid hh' hl' hverify).2.2.2.2.2.2.2.2.2.2.2.2.1

/-- **C5 counterexample.**  `keepalive` writes a new frame for the
identity whose sequence number equals the previous frame's (2), not
previous + 1 (3): the "each new frame carries `sequenceNumber = previous
+ 1`" clause fails on the keepalive operation. -/
theorem keepalive_sequence_not_incremented :
    (readLatestFrame (keepalive sampleStore2 sampleFrame2 sampleNode 4000).2
        "did:demiurge:aaaa").1.map (fun f => f.sessionToken.sequenceNumber)
      = some 2 ∧
    sampleFrame2.sessionToken.sequenceNumber = 2 := by
  exact ⟨by decide, by decide⟩

/-- **C5 witness.**  In the two-session store, the next `wake` mints
sequence number `3 = 2 + 1` from the latest (handoff) frame. -/
theorem sequence_number_progression_witness :
    (wake sampleStore2 sampleIdentity sampleNode 3000 "tok-c").1.frame.sessionToken.sequenceNumber
      = sampleLatest2.sessionToken.sequenceNumber + 1 :=
  sequence_number_progression.2.2.2.2 sampleStore2 sampleIdentity sampleNode 3000 "tok-c"
    sampleHlr2 sampleLatest2 (by decide) (Or.inl (by decide)) (by decide) (by decide)

/-- **C7** (corrected).  `keepaliveFrame(f, node, now)` reuses the exact
session token of `f` (same token value, same `sequenceNumber`: no bump),
sets `frameType = "keepalive"` and `parentHash = f.frameHash`, and carries
the identity and every lifecycle/memory field of `f` forward unchanged —
but (contrary to the claim as stated) not *every* other field: `node`
becomes the call's node argument, `version` is re-stamped, `createdAt` /
`expiresAt` are stamped at call time, and `frameHash` is recomputed over
the new content (it always differs from `f.frameHash`, since a digest
cannot contain itself as `parentHash`). -/
theorem keepaliveFrame_fields (f : SignalFrame) (node : NodeIdentity) (now : Nat) :
    (keepaliveFrame f node now).sessionToken = f.sessionToken ∧
    (keepaliveFrame f node now).frameType = "keepalive" ∧
    (keepaliveFrame f node now).parentHash = f.frameHash ∧
    (keepaliveFrame f node now).identity = f.identity ∧
    (keepaliveFrame f node now).node = node ∧
    (keepaliveFrame f node now).version = SSP_VERSION ∧
    (keepaliveFrame f node now).bootCount = f.bootCount ∧
    (keepaliveFrame f node now).stage = f.stage ∧
    (keepaliveFrame f node now).continuityState = f.continuityState ∧
    (keepaliveFrame f node now).continuityScore = f.continuityScore ∧
    (keepaliveFrame f node now).level = f.level ∧
    (keepaliveFrame f node now).coreValues = f.coreValues ∧
    (keepaliveFrame f node now).coreInterests = f.coreInterests ∧
    (keepaliveFrame f node now).recentThemes = f.recentThemes ∧
    (keepaliveFrame f node now).openThreads = f.openThreads ∧
    (keepaliveFrame f node now).priorities = f.priorities ∧
    (keepaliveFrame f node now).pendingMessages = f.pendingMessages ∧
    (keepaliveFrame f node now).createdAt = now ∧
    (keepaliveFrame f node now).expiresAt = now + DEFAULT_SESSION_TTL_SECONDS * 1000 ∧
    (keepaliveFrame f node now).frameHash = computeFrameHash (keepaliveFrame f node now) ∧
    (keepaliveFrame f node now).frameHash ≠ f.frameHash := by
  refine ⟨rfl, rfl, rfl, rfl, rfl, rfl, rfl, rfl, rfl, rfl, rfl, rfl, rfl, rfl,
    rfl, rfl, rfl, rfl, rfl, rfl, ?_⟩
  have h := hash_sha_ne_parent SSP_VERSION "keepalive" f.identity node
    f.sessionToken.token f.sessionToken.did f.sessionToken.nodeId
    f.sessionToken.sequenceNumber f.bootCount f.stage f.continuityState
    f.continuityScore f.level f.coreValues f.coreInterests f.recentThemes
    f.openThreads f.priorities f.frameHash now
  simpa [keepaliveFrame, buildFrame, computeFrameHash] using h

/-- **C7 counterexample.**  At a concrete frame, the keepalive frame does
*not* carry `frameHash` (nor `createdAt`/`expiresAt`) forward unchanged,
refuting "carries every field of f forward unchanged except `frameType`
and `parentHash`" as stated. -/
theorem keepaliveFrame_not_all_fields_carried :
    (keepaliveFrame sampleFrame2 sampleNode 2500).frameHash ≠ sampleFrame2.frameHash ∧
    (keepaliveFrame sampleFrame2 sampleNode 2500).createdAt ≠ sampleFrame2.createdAt ∧
    (keepaliveFrame sampleFrame2 sampleNode 2500).expiresAt ≠ sampleFrame2.expiresAt := by
  refine ⟨?_, by decide, by decide⟩
  decide

/-- **C10** (confirmed).  Because `keepaliveFrame` reuses the current
frame's sequence number and `writeFrame` keys the archive slot by
`(did, sequenceNumber)`, a `keepalive` call overwrites the archived frame
at that sequence number: afterwards `readFrame(did, f.sessionToken
.sequenceNumber)` returns the keepalive frame, and whatever was archived
there before (if different) is gone — the archive is not strictly
append-only. -/
theorem keepalive_overwrites_archive_slot (t : Transport) (f : SignalFrame)
    (node : NodeIdentity) (now : Nat) :
    (readFrame (keepalive t f node now).2 f.identity.did
        f.sessionToken.sequenceNumber).1 = some (keepaliveFrame f node now) ∧
    (∀ old, (readFrame t f.identity.did f.sessionToken.sequenceNumber).1 = some old →
      old ≠ keepaliveFrame f node now →
      (readFrame (keepalive t f node now).2 f.identity.did
        f.sessionToken.sequenceNumber).1 ≠ some old) := by
  have hlook : lookupKV ((keepalive t f node now).2).frames
      (frameKey f.identity.did f.sessionToken.sequenceNumber)
      = some (StoreValue.frame (keepaliveFrame f node now)) := by
    unfold keepalive
    dsimp only
    simp only [receiveMessages_snd_frames]
    split
    · next vlr heq =>
        simp [writeVisitorRecord, lookupKV_setKV_ne, vlrKey_ne_frameKey,
          readVisitorRecord, touchVisitorRecord_lookup_frameKey, writeFrame,
          keepaliveFrame, buildFrame,
          lookupKV_setKV_self, latestKey_ne_frameKey]
    · simp [readVisitorRecord, touchVisitorRecord_lookup_frameKey, writeFrame,
        keepaliveFrame, buildFrame,
        lookupKV_setKV_self, lookupKV_setKV_ne, latestKey_ne_frameKey]
  have hmain : (readFrame (keepalive t f node now).2 f.identity.did
      f.sessionToken.sequenceNumber).1 = some (keepaliveFrame f node now) := by
    simp [readFrame, hlook]
  refine ⟨hmain, fun old hold hne => ?_⟩
  rw [hmain]
  intro hcontra
  exact hne (Option.some.inj hcontra).symm

/-- **C10 witness.**  In the two-session store, `keepalive` on the
handoff frame (sequence 2) replaces the archived handoff frame at
sequence 2 with the keepalive frame. -/
theorem keepalive_overwrites_archive_slot_witness :
    (readFrame (keepalive sampleStore2 sampleFrame2 sampleNode 4000).2
        sampleFrame2.identity.did sampleFrame2.sessionToken.sequenceNumber).1
      = some (keepaliveFrame sampleFrame2 sampleNode 4000) ∧
    (readFrame (keepalive sampleStore2 sampleFrame2 sampleNode 4000).2
        sampleFrame2.identity.did sampleFrame2.sessionToken.sequenceNumber).1
      ≠ some sampleFrame2 :=
  ⟨(keepalive_overwrites_archive_slot sampleStore2 sampleFrame2 sampleNode 4000).1,
   (keepalive_overwrites_archive_slot sampleStore2 sampleFrame2 sampleNode 4000).2
     sampleFrame2 (by decide) (by decide)⟩

set_option maxHeartbeats 2000000 in
/-- **C9** (corrected).  Transport-call ordering.  `handoff` and `roam`
satisfy the claimed order over their whole call: every frame write
(archive and latest) precedes every VLR write/delete, which precedes
every HLR write.  `wake` and `home` satisfy it only from the first frame
write onward: `wake` issues an HLR write first (the boot-count increment,
or the genesis HLR creation) and `home` issues the foreign-node VLR
delete first — in every case the frame write still precedes all
subsequent VLR writes, and the final HLR update follows them. -/
theorem transport_call_ordering :
    (∀ (t : Transport) (f : SignalFrame) (node : NodeIdentity)
        (u : HandoffUpdates) (now : Nat) (tok : String),
      frameVlrHlrOrdered (emittedTrace t (handoff t f node u now tok).2) = true) ∧
    (∀ (t : Transport) (f : SignalFrame) (hn vn : NodeIdentity) (now : Nat)
        (tok : String),
      frameVlrHlrOrdered (emittedTrace t (roam t f hn vn now tok).2) = true) ∧
    (∀ (t : Transport) (identity : SovereignIdentity) (node : NodeIdentity)
        (now : Nat) (tok : String),
      frameVlrHlrOrdered ((emittedTrace t (wake t identity node now tok).2).dropWhile
        (fun e => !isFrameWriteCall e)) = true) ∧
    (∀ (t : Transport) (f : SignalFrame) (hn : NodeIdentity) (fid : String)
        (now : Nat) (tok : String),
      (emittedTrace t (home t f hn fid now tok).2).head?
          = some (TCall.del (vlrKey fid f.identity.did)) ∧
      frameVlrHlrOrdered ((emittedTrace t (home t f hn fid now tok).2).dropWhile
        (fun e => !isFrameWriteCall e)) = true) := by
  refine ⟨?_, ?_, ?_, ?_⟩
  · intro t f node u now tok
    unfold handoff
    dsimp only
    simp only [writeFrame, writeVisitorRecord, writeHomeRecord,
      readVisitorRecord, readHomeRecord, updateHomeRecord,
      tWrite, tRead, emittedTrace]
    repeat' split
    all_goals
      simp [List.append_assoc, List.drop_left, frameVlrHlrOrdered, allBefore,
        isFrameWriteCall, isVlrWriteCall, isHlrWriteCall]
  · intro t f hn vn now tok
    unfold roam
    dsimp only
    simp only [writeFrame, writeVisitorRecord, writeHomeRecord,
      readVisitorRecord, readHomeRecord, updateHomeRecord,
      tWrite, tRead, emittedTrace]
    repeat' split
    all_goals
      simp [List.append_assoc, List.drop_left, frameVlrHlrOrdered, allBefore,
        isFrameWriteCall, isVlrWriteCall, isHlrWriteCall]
  · intro t identity node now tok
    unfold wake wakeFromHome
    dsimp only
    simp only [writeFrame, writeVisitorRecord, writeHomeRecord,
      readVisitorRecord, readHomeRecord, readLatestFrame, updateHomeRecord,
      incrementBoot, touchVisitorRecord, receiveMessages,
      tWrite, tRead, tReceiveMessages, tClearMessages, emittedTrace]
    repeat' split
    all_goals
      simp [List.append_assoc, List.drop_left, frameVlrHlrOrdered, allBefore,
        isFrameWriteCall, isVlrWriteCall, isHlrWriteCall]
  · intro t f hn fid now tok
    unfold home
    dsimp only
    simp only [writeFrame, writeVisitorRecord, writeHomeRecord, deleteVisitorRecord,
      readVisitorRecord, readHomeRecord, updateHomeRecord, receiveMessages,
      tWrite, tRead, tDelete, tReceiveMessages, tClearMessages, emittedTrace]
    repeat' split
    all_goals
      simp [List.append_assoc, List.drop_left, frameVlrHlrOrdered, allBefore,
        isFrameWriteCall, isVlrWriteCall, isHlrWriteCall]

/-- **C9 counterexample.**  A concrete `home` call whose first transport
call is the foreign-node VLR *delete*, before any frame write, so the
claimed frame→VLR→HLR ordering predicate is false for that call's
trace. -/
theorem home_trace_violates_ordering :
    isVlrWriteCall ((emittedTrace emptyTransport
      (home emptyTransport sampleFrame sampleNode "node-2" 5000 "tok-h").2).headD
        (TCall.read "x")) = true ∧
    frameVlrHlrOrdered (emittedTrace emptyTransport
      (home emptyTransport sampleFrame sampleNode "node-2" 5000 "tok-h").2) = false := by
  exact ⟨by decide, by decide⟩

/-- A frame with the same stored hash but different hashed content never
verifies. -/
theorem verifyFrameHash_false_of_content_ne (f g : SignalFrame)
    (hv : verifyFrameHash f = true) (hg : g.frameHash = f.frameHash)
    (hne : computeFrameHash g ≠ computeFrameHash f) :
    verifyFrameHash g = false := by
  have hf : computeFrameHash f = f.frameHash := by
    simpa [verifyFrameHash] using hv
  have hgoal : computeFrameHash g ≠ g.frameHash := by
    rw [hg, ← hf]; exact hne
  simpa [verifyFrameHash] using hgoal

/-- **C1** (corrected).  `verifyFrameHash` is true on any frame produced by
`buildFrame`, and becomes false after mutating any *hashed* field to a new
value — but, contrary to the claim as stated, mutating `pendingMessages`,
`expiresAt`, or the session token's `issuedAt`/`expiresAt` leaves the
verification result unchanged, because `computeFrameHash` does not
serialise those fields. -/
theorem verifyFrameHash_tamper_detection :
    (∀ (p : BuildParams) (now : Nat), verifyFrameHash (buildFrame p now) = true) ∧
    (∀ (f : SignalFrame) (m : List SignalMessage),
      verifyFrameHash { f with pendingMessages := m } = verifyFrameHash f) ∧
    (∀ (f : SignalFrame) (ea : Nat),
      verifyFrameHash { f with expiresAt := ea } = verifyFrameHash f) ∧
    (∀ (f : SignalFrame) (ia : Nat),
      verifyFrameHash { f with sessionToken := { f.sessionToken with issuedAt := ia } }
        = verifyFrameHash f) ∧
    (∀ (f : SignalFrame) (te : Nat),
      verifyFrameHash { f with sessionToken := { f.sessionToken with expiresAt := te } }
        = verifyFrameHash f) ∧
    (∀ f : SignalFrame, verifyFrameHash f = true →
      (∀ v, v ≠ f.version → verifyFrameHash { f with version := v } = false) ∧
      (∀ v, v ≠ f.frameType → verifyFrameHash { f with frameType := v } = false) ∧
      (∀ v, v ≠ f.identity → verifyFrameHash { f with identity := v } = false) ∧
      (∀ v, v ≠ f.node → verifyFrameHash { f with node := v } = false) ∧
      (∀ v, v ≠ f.sessionToken.token →
        verifyFrameHash { f with sessionToken := { f.sessionToken with token := v } } = false) ∧
      (∀ v, v ≠ f.sessionToken.did →
        verifyFrameHash { f with sessionToken := { f.sessionToken with did := v } } = false) ∧
      (∀ v, v ≠ f.sessionToken.nodeId →
        verifyFrameHash { f with sessionToken := { f.sessionToken with nodeId := v } } = false) ∧
      (∀ v, v ≠ f.sessionToken.sequenceNumber →
        verifyFrameHash { f with sessionToken := { f.sessionToken with sequenceNumber := v } }
          = false) ∧
      (∀ v, v ≠ f.bootCount → verifyFrameHash { f with bootCount := v } = false) ∧
      (∀ v, v ≠ f.stage → verifyFrameHash { f with stage := v } = false) ∧
      (∀ v, v ≠ f.continuityState → verifyFrameHash { f with continuityState := v } = false) ∧
      (∀ v, v ≠ f.continuityScore → verifyFrameHash { f with continuityScore := v } = false) ∧
      (∀ v, v ≠ f.level → verifyFrameHash { f with level := v } = false) ∧
      (∀ v, v ≠ f.coreValues → verifyFrameHash { f with coreValues := v } = false) ∧
      (∀ v, v ≠ f.coreInterests → verifyFrameHash { f with coreInterests := v } = false) ∧
      (∀ v, v ≠ f.recentThemes → verifyFrameHash { f with recentThemes := v } = false) ∧
      (∀ v, v ≠ f.openThreads → verifyFrameHash { f with openThreads := v } = false) ∧
      (∀ v, v ≠ f.priorities → verifyFrameHash { f with priorities := v } = false) ∧
      (∀ v, v ≠ f.parentHash → verifyFrameHash { f with parentHash := v } = false) ∧
      (∀ v, v ≠ f.createdAt → verifyFrameHash { f with createdAt := v } = false)) := by
  refine ⟨?_, fun f m => rfl, fun f ea => rfl, fun f ia => rfl, fun f te => rfl, ?_⟩
  · intro p now
    simp [verifyFrameHash, buildFrame, computeFrameHash]
  · intro f hv
    refine ⟨?_, ?_, ?_, ?_, ?_, ?_, ?_, ?_, ?_, ?_, ?_, ?_, ?_, ?_, ?_, ?_, ?_, ?_, ?_, ?_⟩ <;>
      exact fun v hne => verifyFrameHash_false_of_content_ne f _ hv rfl
        (by simpa [computeFrameHash, Hash.sha.injEq] using hne)

/-- **C1 witness.**  At the concrete genesis frame, an untouched frame
verifies and a `stage` mutation is detected. -/
theorem verifyFrameHash_tamper_detection_witness :
    verifyFrameHash sampleFrame = true ∧
    verifyFrameHash { sampleFrame with stage := "corrupted" } = false :=
  ⟨by decide,
   (verifyFrameHash_tamper_detection.2.2.2.2.2 sampleFrame
      (by decide)).2.2.2.2.2.2.2.2.2.1 "corrupted" (by decide)⟩

/-- **C1 counterexample.**  Mutating `pendingMessages` (a
non-`frameHash`/`signature` field, explicitly named by the claim) does
*not* make `verifyFrameHash` false: the hash skips that field. -/
theorem verifyFrameHash_pendingMessages_blind :
    [sampleMessage] ≠ sampleFrame.pendingMessages ∧
    verifyFrameHash { sampleFrame with pendingMessages := [sampleMessage] } = true := by
  exact ⟨by decide, by decide⟩

end SSP
